import Mathlib

/-!
# Universe: a verification development of `src/main.cpp`

The renderer is a single translation unit.  This file embeds the parts of it
that carry behaviour of their own: the file-scope globals, `ProgramState`
with its text persistence, the polled input handler `processInput`, the GLFW
callbacks, and the command stream that one iteration of the render loop sends
to OpenGL.

Conventions of the embedding.

* A finite `float` or `double` value is the rational number it denotes.
  Arithmetic that the source performs in `float` is followed by `f32`, the
  round-to-nearest-even rounding onto the binary32 grid; a literal such as
  `0.1f` is `f32 (1 / 10)`.  Infinities and NaN are outside the model.
* Mutable program state is passed explicitly.
* Code that lives in headers outside the repository sources is not embedded.
  The member functions of `Camera` and the float text syntax of the C++ stream
  library are parameters of the definitions that call them; calls into
  `Shader`, `Model`, GLFW, stb_image and ImGui appear as named events.
-/

namespace Universe

/-! ## Binary floating point rounding -/

/-- Nearest integer to the fraction `a / b` (for `0 < b`), ties going to the
even neighbour. -/
def roundHalfEven (a : ℤ) (b : ℕ) : ℤ :=
  let f := a / (b : ℤ)
  let r := a % (b : ℤ)
  if 2 * r < (b : ℤ) then f
  else if (b : ℤ) < 2 * r then f + 1
  else if f % 2 = 0 then f else f + 1

/-- Binary logarithm rounded down, by repeated halving; `fuel` bounds the
number of halvings and `n` itself always suffices. -/
def log2Aux : ℕ → ℕ → ℕ
  | 0, _ => 0
  | fuel + 1, n => if n < 2 then 0 else log2Aux fuel (n / 2) + 1

/-- The integer `k` with `2 ^ k ≤ n / d < 2 ^ (k + 1)`, for `0 < n` and
`0 < d`. -/
def ilog2 (n d : ℕ) : ℤ :=
  let k : ℤ := (log2Aux n n : ℤ) - (log2Aux d d : ℤ)
  if 0 ≤ k then
    if d * 2 ^ k.toNat ≤ n then k else k - 1
  else
    if d ≤ n * 2 ^ (-k).toNat then k else k - 1

/-- Rounding of the fraction `n / d` onto the binary floating point grid with
`p` significant bits whose smallest positive member is `2 ^ emin`, to nearest
with ties to even: the result is `m * 2 ^ e` for the returned pair `(m, e)`.
Overflow to infinity is not represented. -/
def roundParts (p : ℕ) (emin : ℤ) (n : ℤ) (d : ℕ) : ℤ × ℤ :=
  if n = 0 then (0, 0)
  else
    let e : ℤ := max (ilog2 n.natAbs d - ((p : ℤ) - 1)) emin
    if 0 ≤ e then (roundHalfEven n (d * 2 ^ e.toNat), e)
    else (roundHalfEven (n * 2 ^ (-e).toNat) d, e)

/-- Rounding of a rational onto the binary grid of `roundParts`. -/
def roundBin (p : ℕ) (emin : ℤ) (x : ℚ) : ℚ :=
  let r := roundParts p emin x.num x.den
  (r.1 : ℚ) * 2 ^ r.2

/-- Rounding to IEEE binary32, the C++ `float`. -/
def f32 (x : ℚ) : ℚ := roundBin 24 (-149) x

/-- Rounding to IEEE binary64, the C++ `double`. -/
def f64 (x : ℚ) : ℚ := roundBin 53 (-1074) x

/-! ## Data model -/

/-- The three components of a `glm::vec3`. -/
structure Vec3 where
  x : ℚ
  y : ℚ
  z : ℚ
  deriving DecidableEq

/-- Modelled from the spec: the `Camera` class of `learnopengl/camera.h`, a
header that is not among the repository sources.  The record lists the data the
spec's data model names, under the member names `main.cpp` uses. -/
structure Camera where
  Position : Vec3
  Front : Vec3
  Up : Vec3
  Right : Vec3
  Yaw : ℚ
  Pitch : ℚ
  Zoom : ℚ
  speedCoef : ℚ
  deriving DecidableEq

/-- The `Camera_Movement` directions `processInput` passes on. -/
inductive CameraMovement where
  | FORWARD
  | BACKWARD
  | LEFT
  | RIGHT
  deriving DecidableEq

/-- The member functions of the external `Camera` class that `main.cpp` calls,
as parameters of the embedding. -/
structure CameraOps where
  /-- The constructor call `Camera(position)`. -/
  construct : Vec3 → Camera
  ProcessKeyboard : CameraMovement → ℚ → Camera → Camera
  ProcessMouseMovement : ℚ → ℚ → Camera → Camera
  ProcessMouseScroll : ℚ → Camera → Camera

/-- Source `struct PointLight`. -/
structure PointLight where
  position : Vec3
  ambient : Vec3
  diffuse : Vec3
  specular : Vec3
  constant : ℚ
  linear : ℚ
  quadratic : ℚ
  deriving DecidableEq

/-- Source `struct ProgramState`. -/
structure ProgramState where
  clearColor : Vec3
  ImGuiEnabled : Bool
  camera : Camera
  CameraMouseMovementUpdateEnabled : Bool
  backpackPosition : Vec3
  backpackScale : ℚ
  pointLight : PointLight
  hdr : Bool
  bloom : Bool
  exposure : ℚ
  gamma : ℚ
  kernelEffects : ℤ
  deriving DecidableEq

/-- The constructor `ProgramState()`: the default member initialisers together
with `camera(glm::vec3(0.0f, 0.0f, 3.0f))`.  `pointLight` has no initialiser, so
its content is whatever the allocation holds, here the argument `junk`. -/
def ProgramState.new (cam : CameraOps) (junk : PointLight) : ProgramState where
  clearColor := ⟨0, 0, 0⟩
  ImGuiEnabled := false
  camera := cam.construct ⟨0, 0, 3⟩
  CameraMouseMovementUpdateEnabled := true
  backpackPosition := ⟨0, 0, 0⟩
  backpackScale := f32 (2 / 10)
  pointLight := junk
  hdr := false
  bloom := false
  exposure := f32 (2 / 10)
  gamma := f32 (22 / 10)
  kernelEffects := 3

/-- The file-scope variables of `main.cpp` (lines 36-61 and 1214). -/
structure Globals where
  cameraPos : Vec3
  cameraFront : Vec3
  cameraUp : Vec3
  lastX : ℚ
  lastY : ℚ
  firstMouse : Bool
  yaw : ℚ
  pitch : ℚ
  fov : ℚ
  deltaTime : ℚ
  lastFrame : ℚ
  blinn : Bool
  blinnKeyPressed : Bool
  spotlightEnabled : Bool
  hdr : Bool
  hdrKeyPressed : Bool
  exposure : ℚ
  /-- The vertex array name of `renderQuad`, `0` until it is generated. -/
  quadVAO : ℕ
  deriving DecidableEq

/-- The initial values of the file-scope variables. -/
def Globals.initial : Globals where
  cameraPos := ⟨0, 0, 3⟩
  cameraFront := ⟨0, 0, -1⟩
  cameraUp := ⟨0, 1, 0⟩
  lastX := 400
  lastY := 300
  firstMouse := true
  yaw := -90
  pitch := 0
  fov := 45
  deltaTime := 0
  lastFrame := 0
  blinn := false
  blinnKeyPressed := false
  spotlightEnabled := true
  hdr := true
  hdrKeyPressed := false
  exposure := 1
  quadVAO := 0

/-- The two cursor modes the program selects with `glfwSetInputMode`. -/
inductive CursorMode where
  | NORMAL
  | DISABLED
  deriving DecidableEq

/-- The part of the GLFW window the program reads and writes. -/
structure Window where
  shouldClose : Bool
  cursorMode : CursorMode
  deriving DecidableEq

/-- Everything the input handlers can reach: the object behind the global
pointer `programState`, the file-scope variables and the window. -/
structure World where
  programState : ProgramState
  globals : Globals
  window : Window
  deriving DecidableEq

/-- What `glfwGetKey` reports during one call of `processInput`, for the keys
it asks about: `true` is `GLFW_PRESS`, `false` is `GLFW_RELEASE`. -/
structure Keys where
  ESCAPE : Bool
  W : Bool
  S : Bool
  A : Bool
  D : Bool
  B : Bool
  Q : Bool
  E : Bool
  deriving DecidableEq

/-! ## Polled input -/

/-- Lines 993-994 of `processInput`: ESC asks the window to close. -/
def pollEscape (k : Keys) (w : World) : World :=
  if k.ESCAPE then { w with window := { w.window with shouldClose := true } } else w

/-- One of the four movement statements of `processInput` (lines 996-1003):
when the key is down the camera moves in `dir` for the global `deltaTime`. -/
def pollMove (cam : CameraOps) (pressed : Bool) (dir : CameraMovement) (w : World) : World :=
  if pressed then
    { w with programState := { w.programState with
        camera := cam.ProcessKeyboard dir w.globals.deltaTime w.programState.camera } }
  else w

/-- Lines 1004-1011 of `processInput`: the Blinn-Phong toggle and its latch. -/
def pollBlinn (k : Keys) (w : World) : World :=
  let w1 :=
    if k.B && !w.globals.blinnKeyPressed then
      { w with globals := { w.globals with blinn := !w.globals.blinn, blinnKeyPressed := true } }
    else w
  if !k.B then { w1 with globals := { w1.globals with blinnKeyPressed := false } } else w1

/-- Lines 1013-1020 of `processInput`: Q lowers and E raises the global
`exposure`, in `float` arithmetic. -/
def pollExposure (k : Keys) (w : World) : World :=
  if k.Q then
    if 0 < w.globals.exposure then
      { w with globals := { w.globals with exposure := f32 (w.globals.exposure - f32 (1 / 10)) } }
    else
      { w with globals := { w.globals with exposure := 0 } }
  else if k.E then
    { w with globals := { w.globals with exposure := f32 (w.globals.exposure + f32 (1 / 10)) } }
  else w

/-- Source `processInput`: its statements in program order. -/
def processInput (cam : CameraOps) (k : Keys) (w : World) : World :=
  let w := pollEscape k w
  let w := pollMove cam k.W .FORWARD w
  let w := pollMove cam k.S .BACKWARD w
  let w := pollMove cam k.A .LEFT w
  let w := pollMove cam k.D .RIGHT w
  let w := pollBlinn k w
  pollExposure k w

/-- The world after a sequence of `processInput` calls, one per element of
`ks`, oldest first. -/
def pollAll (cam : CameraOps) (ks : List Keys) (w : World) : World :=
  ks.foldl (fun acc k => processInput cam k acc) w

/-- What one `processInput` call with Q down does to the global `exposure`
(lines 1013-1017). -/
def qStep (e : ℚ) : ℚ := if 0 < e then f32 (e - f32 (1 / 10)) else 0

/-- The B key state seen by the latest poll of `pre`; released when `pre` is
empty. -/
def lastB (pre : List Keys) : Bool :=
  match pre.getLast? with
  | none => false
  | some k => k.B

/-- A poll in which only Q is down. -/
def onlyQ : Keys := ⟨false, false, false, false, false, false, true, false⟩

/-- A poll in which only B is down. -/
def onlyB : Keys := ⟨false, false, false, false, false, true, false, false⟩

/-- A poll in which no key is down. -/
def noKeys : Keys := ⟨false, false, false, false, false, false, false, false⟩

/-- A camera that ignores every input, for exercising the theorems. -/
def stillCamera : CameraOps where
  construct := fun p => ⟨p, ⟨0, 0, -1⟩, ⟨0, 1, 0⟩, ⟨1, 0, 0⟩, -90, 0, 45, 1⟩
  ProcessKeyboard := fun _ _ c => c
  ProcessMouseMovement := fun _ _ c => c
  ProcessMouseScroll := fun _ c => c

/-- A point light with every entry zero. -/
def zeroLight : PointLight := ⟨⟨0, 0, 0⟩, ⟨0, 0, 0⟩, ⟨0, 0, 0⟩, ⟨0, 0, 0⟩, 0, 0, 0⟩

/-- The world right after `new ProgramState` with the still camera: fresh
state, initial globals, cursor captured. -/
def startWorld : World :=
  ⟨ProgramState.new stillCamera zeroLight, Globals.initial, ⟨false, .DISABLED⟩⟩

/-! ## Persisted state: the text streams

`SaveToFile` and `LoadFromFile` consist of stream insertions and extractions
only.  The stream library is outside the repository; the embedding fixes the
skeleton of a formatted extraction as the C++11 standard describes it and leaves
the numeric text syntax of `float` to a parameter.

* `[istream.formatted.reqmts]`: an extraction first constructs a sentry; on a
  stream that is not good the sentry sets `failbit` and the target is left
  alone; otherwise leading whitespace is skipped, and running out of input there
  sets `eofbit | failbit`, again leaving the target alone.
* `[facet.num.get.virtuals]`, stage 3 (C++11, which the source needs for its
  default member initialisers): when the accumulated field does not convert,
  zero is stored in the target and `failbit` is set.
* For `bool` without `boolalpha` the field is read as a `long`; `0` stores
  `false`, `1` stores `true`, any other value stores `true` and sets `failbit`.
-/

/-- The float text syntax of the stream library. -/
structure NumText where
  /-- The characters `operator<<` writes for a `float`. -/
  putFloat : ℚ → List Char
  /-- Stages 2 and 3 of `num_get` for a `float`, on input that starts with a
  non-blank character: the converted value (`none` when the accumulated field
  does not convert) and the input left behind. -/
  getFloat : List Char → Option ℚ × List Char

/-- An input file stream: the characters not yet consumed, and `failbit`. -/
structure IStream where
  buf : List Char
  failbit : Bool
  deriving DecidableEq

/-- The whitespace of the classic locale. -/
def isSpace (c : Char) : Bool :=
  c = ' ' || c = '\t' || c = '\n' || c = '\r' || c.toNat = 11 || c.toNat = 12

/-- Whitespace skipping of the sentry. -/
def skipWs : List Char → List Char
  | [] => []
  | c :: cs => if isSpace c then skipWs cs else c :: cs

/-- The extraction `in >> x` for a `float` target holding `x`: the stream and
the target afterwards. -/
def extractFloat (lib : NumText) (st : IStream) (x : ℚ) : IStream × ℚ :=
  if st.failbit then (st, x)
  else
    match skipWs st.buf with
    | [] => (⟨[], true⟩, x)
    | c :: cs =>
      match lib.getFloat (c :: cs) with
      | (some v, rest) => (⟨rest, false⟩, v)
      | (none, rest) => (⟨rest, true⟩, 0)

/-- The value of a decimal digit character. -/
def digitVal (c : Char) : Option ℕ :=
  if '0' ≤ c ∧ c ≤ '9' then some (c.toNat - '0'.toNat) else none

/-- Reads the longest run of decimal digits, accumulating their value onto
`acc`; `seen` tells whether a digit was read. -/
def scanDigits : List Char → ℕ → Bool → ℕ × Bool × List Char
  | [], acc, seen => (acc, seen, [])
  | c :: cs, acc, seen =>
    match digitVal c with
    | some d => scanDigits cs (10 * acc + d) true
    | none => (acc, seen, c :: cs)

/-- Stages 2 and 3 of `num_get` for a `long` in base ten: an optional sign and
then digits.  `none` when there is no digit. -/
def getLong (s : List Char) : Option ℤ × List Char :=
  match s with
  | '-' :: cs =>
    match scanDigits cs 0 false with
    | (n, true, rest) => (some (-(n : ℤ)), rest)
    | (_, false, rest) => (none, rest)
  | '+' :: cs =>
    match scanDigits cs 0 false with
    | (n, true, rest) => (some (n : ℤ), rest)
    | (_, false, rest) => (none, rest)
  | cs =>
    match scanDigits cs 0 false with
    | (n, true, rest) => (some (n : ℤ), rest)
    | (_, false, rest) => (none, rest)

/-- The extraction `in >> b` for a `bool` target holding `b`. -/
def extractBool (st : IStream) (b : Bool) : IStream × Bool :=
  if st.failbit then (st, b)
  else
    match skipWs st.buf with
    | [] => (⟨[], true⟩, b)
    | c :: cs =>
      match getLong (c :: cs) with
      | (some 0, rest) => (⟨rest, false⟩, false)
      | (some 1, rest) => (⟨rest, false⟩, true)
      | (some _, rest) => (⟨rest, true⟩, true)
      | (none, rest) => (⟨rest, true⟩, false)

/-- One operand of `<<` in `SaveToFile`. -/
inductive OutItem where
  | float (x : ℚ)
  | bool (b : Bool)
  | char (c : Char)
  deriving DecidableEq

/-- The characters an insertion puts on the stream; a `bool` is written as `1`
or `0`. -/
def OutItem.text (lib : NumText) : OutItem → List Char
  | .float x => lib.putFloat x
  | .bool b => [if b then '1' else '0']
  | .char c => [c]

/-- The characters a sequence of insertions puts on the stream. -/
def outText (lib : NumText) : List OutItem → List Char
  | [] => []
  | i :: is => i.text lib ++ outText lib is

/-- Source `ProgramState::SaveToFile`: the insertions into `out`, in program
order, and the object afterwards.  (`r`, `g`, `b` are the names `glm` gives
`x`, `y`, `z`.) -/
def ProgramState.SaveToFile (s : ProgramState) : ProgramState × List OutItem :=
  (s,
   [.float s.clearColor.x, .char '\n',
    .float s.clearColor.y, .char '\n',
    .float s.clearColor.z, .char '\n',
    .bool s.ImGuiEnabled, .char '\n',
    .float s.camera.Position.x, .char '\n',
    .float s.camera.Position.y, .char '\n',
    .float s.camera.Position.z, .char '\n',
    .float s.camera.Front.x, .char '\n',
    .float s.camera.Front.y, .char '\n',
    .float s.camera.Front.z, .char '\n'])

/-- The content of the file after `SaveToFile` has written it. -/
def savedFile (lib : NumText) (s : ProgramState) : Option (List Char) :=
  some (outText lib s.SaveToFile.2)

/-- The chain of extractions of `LoadFromFile` (lines 112-121) on an open
stream. -/
def loadFields (lib : NumText) (st : IStream) (s : ProgramState) : IStream × ProgramState :=
  let (st, r) := extractFloat lib st s.clearColor.x
  let s := { s with clearColor := { s.clearColor with x := r } }
  let (st, g) := extractFloat lib st s.clearColor.y
  let s := { s with clearColor := { s.clearColor with y := g } }
  let (st, b) := extractFloat lib st s.clearColor.z
  let s := { s with clearColor := { s.clearColor with z := b } }
  let (st, e) := extractBool st s.ImGuiEnabled
  let s := { s with ImGuiEnabled := e }
  let (st, px) := extractFloat lib st s.camera.Position.x
  let s := { s with camera := { s.camera with Position := { s.camera.Position with x := px } } }
  let (st, py) := extractFloat lib st s.camera.Position.y
  let s := { s with camera := { s.camera with Position := { s.camera.Position with y := py } } }
  let (st, pz) := extractFloat lib st s.camera.Position.z
  let s := { s with camera := { s.camera with Position := { s.camera.Position with z := pz } } }
  let (st, fx) := extractFloat lib st s.camera.Front.x
  let s := { s with camera := { s.camera with Front := { s.camera.Front with x := fx } } }
  let (st, fy) := extractFloat lib st s.camera.Front.y
  let s := { s with camera := { s.camera with Front := { s.camera.Front with y := fy } } }
  let (st, fz) := extractFloat lib st s.camera.Front.z
  let s := { s with camera := { s.camera with Front := { s.camera.Front with z := fz } } }
  (st, s)

/-- Source `ProgramState::LoadFromFile`; `file` is the content of the named
file, `none` when it cannot be opened (`if(in)` is then false). -/
def ProgramState.LoadFromFile (lib : NumText) (file : Option (List Char)) (s : ProgramState) :
    ProgramState :=
  match file with
  | none => s
  | some content => (loadFields lib ⟨content, false⟩ s).2

/-! ## The persisted fields, as the spec lists them -/

/-- The ten persisted values in the order of spec section 4.4: clear colour
(r, g, b), the UI-visible flag, camera position (x, y, z), camera front vector
(x, y, z). -/
inductive Field where
  | clearR | clearG | clearB
  | imGui
  | posX | posY | posZ
  | frontX | frontY | frontZ
  deriving DecidableEq

/-- The fixed order of the persisted values. -/
def Field.all : List Field :=
  [.clearR, .clearG, .clearB, .imGui, .posX, .posY, .posZ, .frontX, .frontY, .frontZ]

/-- The value a state holds in a persisted field, as a stream operand. -/
def Field.item (s : ProgramState) : Field → OutItem
  | .clearR => .float s.clearColor.x
  | .clearG => .float s.clearColor.y
  | .clearB => .float s.clearColor.z
  | .imGui => .bool s.ImGuiEnabled
  | .posX => .float s.camera.Position.x
  | .posY => .float s.camera.Position.y
  | .posZ => .float s.camera.Position.z
  | .frontX => .float s.camera.Front.x
  | .frontY => .float s.camera.Front.y
  | .frontZ => .float s.camera.Front.z

/-- One extraction from the stream into a persisted field. -/
def Field.extract (lib : NumText) (f : Field) (a : IStream × ProgramState) :
    IStream × ProgramState :=
  let st := a.1
  let s := a.2
  match f with
  | .clearR =>
    let r := extractFloat lib st s.clearColor.x
    (r.1, { s with clearColor := { s.clearColor with x := r.2 } })
  | .clearG =>
    let r := extractFloat lib st s.clearColor.y
    (r.1, { s with clearColor := { s.clearColor with y := r.2 } })
  | .clearB =>
    let r := extractFloat lib st s.clearColor.z
    (r.1, { s with clearColor := { s.clearColor with z := r.2 } })
  | .imGui =>
    let r := extractBool st s.ImGuiEnabled
    (r.1, { s with ImGuiEnabled := r.2 })
  | .posX =>
    let r := extractFloat lib st s.camera.Position.x
    (r.1, { s with camera := { s.camera with Position := { s.camera.Position with x := r.2 } } })
  | .posY =>
    let r := extractFloat lib st s.camera.Position.y
    (r.1, { s with camera := { s.camera with Position := { s.camera.Position with y := r.2 } } })
  | .posZ =>
    let r := extractFloat lib st s.camera.Position.z
    (r.1, { s with camera := { s.camera with Position := { s.camera.Position with z := r.2 } } })
  | .frontX =>
    let r := extractFloat lib st s.camera.Front.x
    (r.1, { s with camera := { s.camera with Front := { s.camera.Front with x := r.2 } } })
  | .frontY =>
    let r := extractFloat lib st s.camera.Front.y
    (r.1, { s with camera := { s.camera with Front := { s.camera.Front with y := r.2 } } })
  | .frontZ =>
    let r := extractFloat lib st s.camera.Front.z
    (r.1, { s with camera := { s.camera with Front := { s.camera.Front with z := r.2 } } })

/-- Extraction into the fields of `fs`, one after the other. -/
def extractAll (lib : NumText) (fs : List Field) (a : IStream × ProgramState) :
    IStream × ProgramState :=
  fs.foldl (fun acc f => f.extract lib acc) a

/-- The stream and the object after the first `n` extractions of a load from an
open file with the given content. -/
def loadUpTo (lib : NumText) (content : List Char) (s : ProgramState) (n : ℕ) :
    IStream × ProgramState :=
  extractAll lib (Field.all.take n) (⟨content, false⟩, s)

/-- Everything in a `ProgramState` that is not one of the ten persisted
values. -/
def unsaved (s : ProgramState) :
    Bool × Vec3 × ℚ × PointLight × Bool × Bool × ℚ × ℚ × ℤ × Vec3 × Vec3 × ℚ × ℚ × ℚ × ℚ :=
  (s.CameraMouseMovementUpdateEnabled, s.backpackPosition, s.backpackScale, s.pointLight,
   s.hdr, s.bloom, s.exposure, s.gamma, s.kernelEffects,
   s.camera.Up, s.camera.Right, s.camera.Yaw, s.camera.Pitch, s.camera.Zoom, s.camera.speedCoef)

/-- The library reads back the text it wrote for `x`, when a newline follows
it, as the value `q x`, and stops in front of the newline. -/
def ReadsBack (lib : NumText) (q : ℚ → ℚ) (x : ℚ) : Prop :=
  ∀ (rest : List Char) (v : ℚ),
    extractFloat lib ⟨lib.putFloat x ++ '\n' :: rest, false⟩ v = (⟨'\n' :: rest, false⟩, q x)

/-- The decimal digits of a natural number. -/
def natDigits (n : ℕ) : List Char := Nat.toDigits 10 n

/-- A small instance of the float text syntax, for exercising the theorems:
numbers are written rounded down to an integer, and read as an optional sign
followed by digits. -/
def plainText : NumText where
  putFloat := fun x => if ⌊x⌋ < 0 then '-' :: natDigits ⌊x⌋.natAbs else natDigits ⌊x⌋.natAbs
  getFloat := fun s =>
    match getLong s with
    | (some n, rest) => (some (n : ℚ), rest)
    | (none, rest) => (none, rest)

/-- The text `0 0 0 0 0 0 x`, one item per line: six numbers and then a line
that is not a number. -/
def brokenFile : List Char :=
  ['0', '\n', '0', '\n', '0', '\n', '0', '\n', '0', '\n', '0', '\n', 'x', '\n']

/-- Parsing has stopped in front of the `n`-th persisted field (counting from
zero): the stream has already failed, or nothing but whitespace is left. -/
def StoppedBefore (lib : NumText) (content : List Char) (s : ProgramState) (n : ℕ) : Prop :=
  (loadUpTo lib content s n).1.failbit = true ∨
    ((loadUpTo lib content s n).1.failbit = false ∧ skipWs (loadUpTo lib content s n).1.buf = [])

/-! ## The OpenGL command stream

Every OpenGL call of `main.cpp`, and every call into `Shader` or `Model` that
reaches OpenGL, is one `GLCmd`.  Handles are named after the variables that hold
them.  Matrices are kept as the expressions that build them. -/

/-- The shader programs of `main` (lines 194-217). -/
inductive Shader where
  | ourShader | skyboxShader | blendingShader | faceCullingShader
  | blinnPhongTextureShader | screenShader
  deriving DecidableEq

/-- The models of `main` (lines 220-229). -/
inductive SceneModel where
  | modelEarth | modelRocket | modelAstronaut | modelMars | modelSun
  deriving DecidableEq

/-- The vertex array objects; `zero` is the name `0`. -/
inductive VertexArray where
  | zero | skyboxVAO | outsideTransparentVerticesVAO | transparentVAO
  | faceCullingBoxVAO | metalTextureVerticesVAO | quadVAO
  deriving DecidableEq

/-- The texture objects; `textureID` is the local handle inside `loadTexture`
and `loadCubemap`, before the caller stores it. -/
inductive Texture where
  | cubemapTexture | outsideTransparentTexture | transparentTexture
  | faceCullingTexture | floorTexture | colorBuffers0 | colorBuffers1 | textureID
  deriving DecidableEq

/-- The framebuffer objects; `zero` is the window's own framebuffer. -/
inductive Framebuffer where
  | zero | hdrFBO
  deriving DecidableEq

inductive Capability where
  | DEPTH_TEST | BLEND | CULL_FACE
  deriving DecidableEq

inductive DepthFunc where
  | LESS | LEQUAL
  deriving DecidableEq

inductive BlendFactor where
  | ZERO | ONE | SRC_ALPHA | ONE_MINUS_SRC_ALPHA
  deriving DecidableEq

inductive Face where
  | FRONT | BACK
  deriving DecidableEq

inductive Winding where
  | CW | CCW
  deriving DecidableEq

inductive Primitive where
  | TRIANGLES | TRIANGLE_STRIP
  deriving DecidableEq

inductive TextureTarget where
  | TEXTURE_2D | TEXTURE_CUBE_MAP
  deriving DecidableEq

/-- The target of an image upload; `CUBE_MAP_POSITIVE_X_plus i` is the
enumerator `GL_TEXTURE_CUBE_MAP_POSITIVE_X + i`. -/
inductive ImageTarget where
  | TEXTURE_2D
  | CUBE_MAP_POSITIVE_X_plus (i : ℕ)
  deriving DecidableEq

/-- Pixel formats; `indeterminate` is the content of the local `format` of
`loadTexture` when none of its three assignments ran. -/
inductive PixelFormat where
  | RED | RGB | RGBA | RGBA16F | indeterminate
  deriving DecidableEq

inductive TexParameter where
  | MIN_FILTER | MAG_FILTER | WRAP_S | WRAP_T | WRAP_R
  deriving DecidableEq

inductive TexParameterValue where
  | LINEAR | LINEAR_MIPMAP_LINEAR | CLAMP_TO_EDGE | REPEAT
  deriving DecidableEq

/-- A 4x4 matrix, as the `glm` expression that produces it. -/
inductive Mat4 where
  | identity
  | translate (m : Mat4) (v : Vec3)
  | rotate (m : Mat4) (degrees : ℚ) (axis : Vec3)
  | scale (m : Mat4) (v : Vec3)
  | perspective (fovDegrees : ℚ) (width height : ℕ) (near far : ℚ)
  | viewOf (c : Camera)
  | mat4OfMat3 (m : Mat4)
  deriving DecidableEq

/-- The value of a uniform write. -/
inductive UniformValue where
  | bool (b : Bool)
  | int (i : ℤ)
  | float (x : ℚ)
  | vec3 (v : Vec3)
  | mat4 (m : Mat4)
  deriving DecidableEq

/-- One call that reaches OpenGL. -/
inductive GLCmd where
  | enable (c : Capability)
  | disable (c : Capability)
  | depthFunc (f : DepthFunc)
  | blendFunc (src dst : BlendFactor)
  | cullFace (f : Face)
  | frontFace (w : Winding)
  | clearColor (r g b a : ℚ)
  | clear
  | viewport (x y width height : ℤ)
  | bindFramebuffer (fb : Framebuffer)
  /-- The call `Shader::use`. -/
  | useProgram (s : Shader)
  /-- The calls `Shader::setBool`, `setInt`, `setFloat`, `setVec3`, `setMat4`. -/
  | setUniform (s : Shader) (name : String) (v : UniformValue)
  | bindVertexArray (v : VertexArray)
  | activeTexture0
  | bindTexture (target : TextureTarget) (t : Texture)
  | drawArrays (mode : Primitive) (first count : ℕ)
  /-- The call `Model::Draw(shader)`. -/
  | drawModel (m : SceneModel) (s : Shader)
  /-- The call `ImGui_ImplOpenGL3_RenderDrawData`. -/
  | renderDrawData
  | genTextures (t : Texture)
  | texImage2D (target : ImageTarget) (internal : PixelFormat) (width height : ℤ)
      (format : PixelFormat)
  | generateMipmap
  | texParameteri (target : TextureTarget) (p : TexParameter) (v : TexParameterValue)
  /-- Buffer, vertex layout, framebuffer and renderbuffer set-up and release
  (`glGenBuffers`, `glBufferData`, `glVertexAttribPointer`, ...), under the name
  of the call and of the variable it works on. -/
  | resource (call : String) (object : String)
  deriving DecidableEq

/-- The part of the OpenGL pipeline state the claims speak about. -/
structure GLState where
  depthTest : Bool
  blend : Bool
  cullFaceEnabled : Bool
  depthFunc : DepthFunc
  blendSrc : BlendFactor
  blendDst : BlendFactor
  cullFace : Face
  frontFace : Winding
  framebuffer : Framebuffer
  program : Option Shader
  vertexArray : VertexArray
  deriving DecidableEq

/-- The state of a freshly created context, as the OpenGL specification fixes
it. -/
def GLState.fresh : GLState where
  depthTest := false
  blend := false
  cullFaceEnabled := false
  depthFunc := .LESS
  blendSrc := .ONE
  blendDst := .ZERO
  cullFace := .BACK
  frontFace := .CCW
  framebuffer := .zero
  program := none
  vertexArray := .zero

/-- The effect of one command on the tracked state.  `Model::Draw` and the ImGui
renderer live outside the repository sources; they are taken to hand back the
tracked state as they found it. -/
def GLCmd.apply (c : GLCmd) (st : GLState) : GLState :=
  match c with
  | .enable .DEPTH_TEST => { st with depthTest := true }
  | .enable .BLEND => { st with blend := true }
  | .enable .CULL_FACE => { st with cullFaceEnabled := true }
  | .disable .DEPTH_TEST => { st with depthTest := false }
  | .disable .BLEND => { st with blend := false }
  | .disable .CULL_FACE => { st with cullFaceEnabled := false }
  | .depthFunc f => { st with depthFunc := f }
  | .blendFunc s d => { st with blendSrc := s, blendDst := d }
  | .cullFace f => { st with cullFace := f }
  | .frontFace w => { st with frontFace := w }
  | .bindFramebuffer fb => { st with framebuffer := fb }
  | .useProgram s => { st with program := some s }
  | .bindVertexArray v => { st with vertexArray := v }
  | _ => st

/-- The state after a sequence of commands. -/
def runGL (cmds : List GLCmd) (st : GLState) : GLState :=
  cmds.foldl (fun acc c => c.apply acc) st

/-- Each command of a sequence together with the state it is issued in. -/
def annotate : List GLCmd → GLState → List (GLCmd × GLState)
  | [], _ => []
  | c :: cs, st => (c, st) :: annotate cs (c.apply st)

/-! ## Events of a run -/

/-- One observable step of `main`. -/
inductive Ev where
  /-- A call that reaches OpenGL. -/
  | gl (c : GLCmd)
  /-- A line written to `std::cout` or `std::cerr`. -/
  | out (text : String)
  /-- A call into GLFW, glad, stb_image, ImGui, `Shader` or `Model` that is not
  itself an OpenGL command of `main.cpp`, under its name. -/
  | lib (call : String)
  /-- The statement `programState = new ProgramState`. -/
  | newProgramState
  /-- The statement `delete programState`. -/
  | deleteProgramState
  /-- A call of `ProgramState::SaveToFile` with its insertions. -/
  | saveToFile (filename : String) (items : List OutItem)
  deriving DecidableEq

/-- What `stbi_load` hands back for a decoded image. -/
structure Image where
  width : ℤ
  height : ℤ
  nrComponents : ℤ
  deriving DecidableEq

/-- Source `loadTexture` (lines 1154-1212): the events of the call, given what
`stbi_load` returns for the path (`none` is a null pointer).  The function always
returns the `textureID` it generated. -/
def loadTexture (path : String) (data : Option Image) : List Ev :=
  [.gl (.genTextures .textureID), .lib "stbi_load"] ++
  match data with
  | some img =>
    let format : PixelFormat :=
      if img.nrComponents = 1 then .RED
      else if img.nrComponents = 3 then .RGB
      else if img.nrComponents = 4 then .RGBA
      else .indeterminate
    let wrap : TexParameterValue := if format = .RGBA then .CLAMP_TO_EDGE else .REPEAT
    [.gl (.bindTexture .TEXTURE_2D .textureID),
     .gl (.texImage2D .TEXTURE_2D format img.width img.height format),
     .gl .generateMipmap,
     .gl (.texParameteri .TEXTURE_2D .WRAP_S wrap),
     .gl (.texParameteri .TEXTURE_2D .WRAP_T wrap),
     .gl (.texParameteri .TEXTURE_2D .MIN_FILTER .LINEAR_MIPMAP_LINEAR),
     .gl (.texParameteri .TEXTURE_2D .MAG_FILTER .LINEAR),
     .lib "stbi_image_free"]
  | none =>
    [.out ("Texture failed to load at path: " ++ path), .lib "stbi_image_free"]

/-- The body of the loop of `loadCubemap` for the faces from index `i` on. -/
def loadCubemapFaces (decode : String → Option Image) : List String → ℕ → List Ev
  | [], _ => []
  | face :: faces, i =>
    (.lib "stbi_load" ::
      match decode face with
      | some img =>
        [.gl (.texImage2D (.CUBE_MAP_POSITIVE_X_plus i) .RGB img.width img.height .RGB),
         .lib "stbi_image_free"]
      | none =>
        [.out ("Cubemap texture failed to load at path: " ++ face), .lib "stbi_image_free"])
    ++ loadCubemapFaces decode faces (i + 1)

/-- Source `loadCubemap` (lines 945-989).  The function always returns the
`textureID` it generated. -/
def loadCubemap (decode : String → Option Image) (faces : List String) : List Ev :=
  [.gl (.genTextures .textureID), .gl (.bindTexture .TEXTURE_CUBE_MAP .textureID)] ++
  loadCubemapFaces decode faces 0 ++
  [.gl (.texParameteri .TEXTURE_CUBE_MAP .MIN_FILTER .LINEAR),
   .gl (.texParameteri .TEXTURE_CUBE_MAP .MAG_FILTER .LINEAR),
   .gl (.texParameteri .TEXTURE_CUBE_MAP .WRAP_S .CLAMP_TO_EDGE),
   .gl (.texParameteri .TEXTURE_CUBE_MAP .WRAP_T .CLAMP_TO_EDGE),
   .gl (.texParameteri .TEXTURE_CUBE_MAP .WRAP_R .CLAMP_TO_EDGE)]

/-- The OpenGL commands among the events of a run, in order. -/
def glCommands : List Ev → List GLCmd
  | [] => []
  | .gl c :: es => c :: glCommands es
  | _ :: es => glCommands es

/-- The set-up of a vertex array with its buffer and `attribs` vertex
attributes, as `main` writes it five times: generate both names, bind them,
upload the data, enable and describe each attribute. -/
def vertexArraySetup (v : VertexArray) (name : String) (attribs : ℕ) : List Ev :=
  [.gl (.resource "glGenVertexArrays" (name ++ "VAO")),
   .gl (.resource "glGenBuffers" (name ++ "VBO")),
   .gl (.bindVertexArray v),
   .gl (.resource "glBindBuffer" (name ++ "VBO")),
   .gl (.resource "glBufferData" (name ++ "VBO"))] ++
  (List.range attribs).flatMap (fun _ =>
    [.gl (.resource "glEnableVertexAttribArray" (name ++ "VAO")),
     .gl (.resource "glVertexAttribPointer" (name ++ "VAO"))])

/-! ## Start-up of `main` -/

/-- What the machine answers while `main` runs, as far as `main` looks at it. -/
structure Machine where
  /-- Whether `glfwCreateWindow` returned a window. -/
  windowCreated : Bool
  /-- Whether `gladLoadGLLoader` succeeded. -/
  gladLoaded : Bool
  /-- The content of the uninitialised `pointLight` member of the new
  `ProgramState`. -/
  junk : PointLight
  /-- The result of `stbi_load` for each path. -/
  decode : String → Option Image
  /-- Whether `glCheckFramebufferStatus` reported `GL_FRAMEBUFFER_COMPLETE`. -/
  framebufferComplete : Bool
  /-- The content of `resources/program_state.txt` at launch, `none` when the
  file is absent. -/
  stateFile : Option (List Char)
  /-- The name `glGenVertexArrays` hands out for the quad of `renderQuad`. -/
  quadName : ℕ
  /-- The value of the expression `-0.1f * cos(currentFrame) - 0.3f`. -/
  wobble : ℚ → ℚ

/-- The values `main` stores into `programState->pointLight` (lines 632-640). -/
def scenePointLight : PointLight where
  position := ⟨-26, 22, 16⟩
  ambient := ⟨f32 (7 / 10), f32 (7 / 10), f32 (7 / 10)⟩
  diffuse := ⟨f32 (6 / 10), f32 (6 / 10), f32 (6 / 10)⟩
  specular := ⟨1, 1, 1⟩
  constant := 1
  linear := f32 (14 / 1000)
  quadratic := f32 (7 / 10000)

/-- The six cube map faces, in the order of lines 299-304. -/
def skyboxFaces : List String :=
  ["resources/textures/skybox/_front.png", "resources/textures/skybox/_back.png",
   "resources/textures/skybox/_bottom.png", "resources/textures/skybox/_top.png",
   "resources/textures/skybox/_right.png", "resources/textures/skybox/_left.png"]

/-- One round of the loop that creates the two colour buffers of the
off-screen framebuffer (lines 439-463). -/
def colorBufferSetup (t : Texture) (name : String) : List Ev :=
  [.gl (.bindTexture .TEXTURE_2D t),
   .gl (.texImage2D .TEXTURE_2D .RGBA16F 800 600 .RGBA),
   .gl (.texParameteri .TEXTURE_2D .MIN_FILTER .LINEAR),
   .gl (.texParameteri .TEXTURE_2D .MAG_FILTER .LINEAR),
   .gl (.texParameteri .TEXTURE_2D .WRAP_S .CLAMP_TO_EDGE),
   .gl (.texParameteri .TEXTURE_2D .WRAP_T .CLAMP_TO_EDGE),
   .gl (.resource "glFramebufferTexture2D" name)]

/-- Lines 177-630 of `main`: from the ImGui set-up to the last shader
configuration in front of the render loop.  Paths are written as the source
passes them to `FileSystem::getPath`, without the root that call puts in
front. -/
def setupEvents (m : Machine) : List Ev :=
  [.lib "IMGUI_CHECKVERSION",
   .lib "ImGui::CreateContext", .lib "ImGui::GetIO", .lib "ImGui_ImplGlfw_InitForOpenGL",
   .lib "ImGui_ImplOpenGL3_Init",
   .gl (.enable .DEPTH_TEST), .gl (.depthFunc .LESS),
   .gl (.enable .BLEND), .gl (.blendFunc .SRC_ALPHA .ONE_MINUS_SRC_ALPHA),
   .gl (.enable .CULL_FACE), .gl (.cullFace .FRONT), .gl (.frontFace .CW),
   .lib "Shader ourShader", .lib "Shader skyboxShader", .lib "Shader blendingShader",
   .lib "Shader faceCullingShader", .lib "Shader blinnPhongTextureShader",
   .lib "Shader screenShader",
   .lib "Model modelEarth", .lib "modelEarth.SetShaderTextureNamePrefix",
   .lib "Model modelRocket", .lib "modelRocket.SetShaderTextureNamePrefix",
   .lib "Model modelAstronaut", .lib "modelAstronaut.SetShaderTextureNamePrefix",
   .lib "Model modelMars", .lib "modelMars.SetShaderTextureNamePrefix",
   .lib "Model modelSun", .lib "modelSun.SetShaderTextureNamePrefix"] ++
  vertexArraySetup .skyboxVAO "skybox" 1 ++
  loadCubemap m.decode skyboxFaces ++
  [.gl (.useProgram .skyboxShader), .gl (.setUniform .skyboxShader "skybox" (.int 0))] ++
  vertexArraySetup .outsideTransparentVerticesVAO "outsideTransparentVertices" 2 ++
  vertexArraySetup .transparentVAO "transparent" 2 ++
  [.gl (.bindVertexArray .zero)] ++
  loadTexture "resources/textures/wood_texture.png"
    (m.decode "resources/textures/wood_texture.png") ++
  loadTexture "resources/textures/window_60percent.png"
    (m.decode "resources/textures/window_60percent.png") ++
  [.gl (.useProgram .blendingShader), .gl (.setUniform .blendingShader "texture1" (.int 0)),
   .gl (.resource "glGenFramebuffers" "hdrFBO"), .gl (.bindFramebuffer .hdrFBO),
   .gl (.resource "glGenTextures" "colorBuffers")] ++
  colorBufferSetup .colorBuffers0 "colorBuffers[0]" ++
  colorBufferSetup .colorBuffers1 "colorBuffers[1]" ++
  [.gl (.resource "glGenRenderbuffers" "rboDepth"),
   .gl (.resource "glBindRenderbuffer" "rboDepth"),
   .gl (.resource "glRenderbufferStorage" "rboDepth"),
   .gl (.resource "glFramebufferRenderbuffer" "rboDepth"),
   .gl (.resource "glDrawBuffers" "attachments"),
   .gl (.resource "glCheckFramebufferStatus" "hdrFBO")] ++
  (if m.framebufferComplete then [] else [.out "Framebuffer is not complete!"]) ++
  vertexArraySetup .faceCullingBoxVAO "faceCullingBox" 2 ++
  [.gl (.bindVertexArray .zero)] ++
  loadTexture "resources/textures/wood_texture.png"
    (m.decode "resources/textures/wood_texture.png") ++
  [.gl (.useProgram .faceCullingShader),
   .gl (.setUniform .faceCullingShader "texture1" (.int 0))] ++
  vertexArraySetup .metalTextureVerticesVAO "metalTextureVertices" 3 ++
  [.gl (.bindVertexArray .zero)] ++
  loadTexture "resources/textures/metal_texture.png"
    (m.decode "resources/textures/metal_texture.png") ++
  [.gl (.useProgram .blinnPhongTextureShader),
   .gl (.setUniform .blinnPhongTextureShader "texture1" (.int 0))]

/-! ## One iteration of the render loop -/

/-- The projection matrix every pass recomputes: `glm::perspective` of the
camera zoom for the 800 by 600 window. -/
def projectionOf (ps : ProgramState) : Mat4 :=
  .perspective ps.camera.Zoom 800 600 (f32 (1 / 10)) 100

/-- Source `renderQuad` (lines 1216-1259): on the first call (`quadVAO == 0`) the
quad is created under the name the driver hands out; every call draws it. -/
def renderQuad (quadName : ℕ) (g : Globals) : Globals × List GLCmd :=
  let draw : List GLCmd :=
    [.bindVertexArray .quadVAO, .drawArrays .TRIANGLE_STRIP 0 4, .bindVertexArray .zero]
  if g.quadVAO = 0 then
    ({ g with quadVAO := quadName },
     [.resource "glGenVertexArrays" "quadVAO", .resource "glGenBuffers" "quadVBO",
      .bindVertexArray .quadVAO, .resource "glBindBuffer" "quadVBO",
      .resource "glBufferData" "quadVBO",
      .resource "glEnableVertexAttribArray" "quadVAO",
      .resource "glVertexAttribPointer" "quadVAO",
      .resource "glEnableVertexAttribArray" "quadVAO",
      .resource "glVertexAttribPointer" "quadVAO"] ++ draw)
  else (g, draw)

/-- Lines 650-693: the clears, the first uniforms of `ourShader`, and the floor
quad. -/
def floorPass (ps : ProgramState) (g : Globals) : List GLCmd :=
  [.clearColor ps.clearColor.x ps.clearColor.y ps.clearColor.z 1,
   .clear,
   .bindFramebuffer .hdrFBO,
   .clear,
   .useProgram .ourShader,
   .setUniform .ourShader "blinn" (.bool g.blinn),
   .setUniform .ourShader "viewPosition" (.vec3 ps.camera.Position),
   .setUniform .ourShader "projection" (.mat4 (projectionOf ps)),
   .setUniform .ourShader "view" (.mat4 (.viewOf ps.camera)),
   .useProgram .blinnPhongTextureShader,
   .setUniform .blinnPhongTextureShader "projection" (.mat4 (projectionOf ps)),
   .setUniform .blinnPhongTextureShader "view" (.mat4 (.viewOf ps.camera)),
   .setUniform .blinnPhongTextureShader "viewPos" (.vec3 ps.camera.Position),
   .setUniform .blinnPhongTextureShader "lightPos" (.vec3 ps.pointLight.position),
   .setUniform .blinnPhongTextureShader "blinn" (.int (if g.blinn then 1 else 0)),
   .bindVertexArray .metalTextureVerticesVAO,
   .activeTexture0,
   .bindTexture .TEXTURE_2D .floorTexture,
   .drawArrays .TRIANGLES 0 6]

/-- Lines 695-732: the box with its opaque sides, the small rocket inside it,
and the window side. -/
def blendedPass (wobble : ℚ → ℚ) (ps : ProgramState) (currentFrame : ℚ) : List GLCmd :=
  [.useProgram .blendingShader,
   .setUniform .blendingShader "projection" (.mat4 (projectionOf ps)),
   .setUniform .blendingShader "view" (.mat4 (.viewOf ps.camera)),
   .bindVertexArray .outsideTransparentVerticesVAO,
   .activeTexture0,
   .bindTexture .TEXTURE_2D .outsideTransparentTexture,
   .setUniform .blendingShader "model" (.mat4 (.translate .identity ⟨-5, 0, -1⟩)),
   .drawArrays .TRIANGLES 0 30,
   .setUniform .ourShader "model"
     (.mat4 (.scale (.translate .identity ⟨-5, wobble currentFrame, -1⟩)
       ⟨f32 (2 / 10), f32 (2 / 10), f32 (2 / 10)⟩)),
   .drawModel .modelRocket .ourShader,
   .bindVertexArray .transparentVAO,
   .activeTexture0,
   .bindTexture .TEXTURE_2D .transparentTexture,
   .setUniform .blendingShader "model" (.mat4 (.translate .identity ⟨-5, 0, -1⟩)),
   .drawArrays .TRIANGLES 0 6]

/-- Lines 734-762: the face-culled box and the small astronaut inside it. -/
def culledPass (wobble : ℚ → ℚ) (currentFrame : ℚ) : List GLCmd :=
  [.enable .CULL_FACE,
   .cullFace .FRONT,
   .frontFace .CW,
   .bindVertexArray .faceCullingBoxVAO,
   .activeTexture0,
   .bindTexture .TEXTURE_2D .faceCullingTexture,
   .setUniform .faceCullingShader "model" (.mat4 (.translate .identity ⟨-5, 0, -3⟩)),
   .drawArrays .TRIANGLES 0 36,
   .disable .CULL_FACE,
   .setUniform .ourShader "model"
     (.mat4 (.scale (.rotate (.translate .identity ⟨-5, wobble currentFrame, -3⟩) 90 ⟨0, 1, 0⟩)
       ⟨f32 (15 / 100), f32 (15 / 100), f32 (15 / 100)⟩)),
   .drawModel .modelAstronaut .ourShader]

/-- Lines 764-884: the lights and the seven large models. -/
def modelPass (ps : ProgramState) : List GLCmd :=
  [.useProgram .ourShader,
   .setUniform .ourShader "dirLight.direction" (.vec3 ⟨-30, -50, 0⟩),
   .setUniform .ourShader "dirLight.ambient" (.vec3 ⟨f32 (6 / 100), f32 (6 / 100), f32 (6 / 100)⟩),
   .setUniform .ourShader "dirLight.diffuse" (.vec3 ⟨f32 (6 / 10), f32 (2 / 10), f32 (2 / 10)⟩),
   .setUniform .ourShader "dirLight.specular" (.vec3 ⟨f32 (1 / 10), f32 (1 / 10), f32 (1 / 10)⟩),
   .setUniform .ourShader "pointLight[0].position" (.vec3 ps.pointLight.position),
   .setUniform .ourShader "pointLight[0].ambient" (.vec3 ps.pointLight.ambient),
   .setUniform .ourShader "pointLight[0].diffuse" (.vec3 ps.pointLight.diffuse),
   .setUniform .ourShader "pointLight[0].specular" (.vec3 ps.pointLight.specular),
   .setUniform .ourShader "pointLight[0].constant" (.float ps.pointLight.constant),
   .setUniform .ourShader "pointLight[0].linear" (.float ps.pointLight.linear),
   .setUniform .ourShader "pointLight[0].quadratic" (.float ps.pointLight.quadratic),
   .setUniform .ourShader "viewPosition" (.vec3 ps.camera.Position),
   .setUniform .ourShader "material.shininess" (.float 32),
   .setUniform .ourShader "projection" (.mat4 (projectionOf ps)),
   .setUniform .ourShader "view" (.mat4 (.viewOf ps.camera)),
   .setUniform .ourShader "model"
     (.mat4 (.scale (.translate .identity ⟨-35, 15, 10⟩)
       ⟨f32 (95 / 10), f32 (95 / 10), f32 (95 / 10)⟩)),
   .drawModel .modelSun .ourShader,
   .setUniform .ourShader "model"
     (.mat4 (.scale (.rotate (.rotate (.translate .identity ⟨0, -5, -25⟩) 170 ⟨1, 0, 0⟩)
       (-40) ⟨0, 1, 0⟩) ⟨f32 (45 / 10), f32 (45 / 10), f32 (45 / 10)⟩)),
   .drawModel .modelEarth .ourShader,
   .setUniform .ourShader "model"
     (.mat4 (.scale (.rotate (.translate .identity ⟨8, f32 (19 / 10), -20⟩) (-50) ⟨0, 0, 1⟩)
       ⟨f32 (7 / 10), f32 (7 / 10), f32 (7 / 10)⟩)),
   .drawModel .modelRocket .ourShader,
   .setUniform .ourShader "model"
     (.mat4 (.scale (.translate .identity ⟨35, 8, -15⟩)
       ⟨f32 (14 / 10), f32 (14 / 10), f32 (14 / 10)⟩)),
   .drawModel .modelMars .ourShader,
   .setUniform .ourShader "model"
     (.mat4 (.scale (.rotate (.translate .identity ⟨f32 (345 / 10), f32 (127 / 10), -14⟩)
       30 ⟨0, 1, 0⟩) ⟨f32 (15 / 100), f32 (15 / 100), f32 (15 / 100)⟩)),
   .drawModel .modelAstronaut .ourShader,
   .setUniform .ourShader "model"
     (.mat4 (.scale (.rotate (.translate .identity ⟨f32 (349 / 10), f32 (127 / 10), -14⟩)
       (-30) ⟨0, 1, 0⟩) ⟨f32 (15 / 100), f32 (15 / 100), f32 (15 / 100)⟩)),
   .drawModel .modelAstronaut .ourShader]

/-- Lines 886-897: the skybox. -/
def skyboxPass (ps : ProgramState) : List GLCmd :=
  [.depthFunc .LEQUAL,
   .useProgram .skyboxShader,
   .setUniform .skyboxShader "view" (.mat4 (.mat4OfMat3 (.viewOf ps.camera))),
   .setUniform .skyboxShader "projection" (.mat4 (projectionOf ps)),
   .bindVertexArray .skyboxVAO,
   .activeTexture0,
   .bindTexture .TEXTURE_CUBE_MAP .cubemapTexture,
   .drawArrays .TRIANGLES 0 36,
   .bindVertexArray .zero,
   .depthFunc .LESS]

/-- Lines 899-911: back to the window's framebuffer and the uniforms of the
post-process shader. -/
def resolvePass (ps : ProgramState) : List GLCmd :=
  [.bindFramebuffer .zero,
   .clear,
   .useProgram .screenShader,
   .setUniform .screenShader "bloom" (.int (if ps.bloom then 1 else 0)),
   .setUniform .screenShader "effect" (.int ps.kernelEffects),
   .setUniform .screenShader "hdr" (.int (if ps.hdr then 1 else 0)),
   .setUniform .screenShader "exposure" (.float ps.exposure),
   .setUniform .screenShader "gamma" (.float ps.gamma),
   .activeTexture0,
   .bindTexture .TEXTURE_2D .colorBuffers0]

/-- Lines 650-913: the OpenGL commands of one iteration up to and including
`renderQuad()`, in program order, for the state `processInput` left behind. -/
def frameCommands (m : Machine) (ps : ProgramState) (g : Globals) (currentFrame : ℚ) :
    List GLCmd :=
  floorPass ps g ++ blendedPass m.wobble ps currentFrame ++ culledPass m.wobble currentFrame ++
    modelPass ps ++ skyboxPass ps ++ resolvePass ps ++ (renderQuad m.quadName g).2

/-! ## Callbacks and the settings overlay -/

/-- The key code `GLFW_KEY_F1` of `GLFW/glfw3.h`. -/
def GLFW_KEY_F1 : ℤ := 290

/-- The action code `GLFW_PRESS` of `GLFW/glfw3.h`; `GLFW_RELEASE` is `0` and
`GLFW_REPEAT` is `2`. -/
def GLFW_PRESS : ℤ := 1

/-- Source `key_callback` (lines 1135-1152). -/
def key_callback (key _scancode action _mods : ℤ) (w : World) : World :=
  if key = GLFW_KEY_F1 ∧ action = GLFW_PRESS then
    let ps := { w.programState with ImGuiEnabled := !w.programState.ImGuiEnabled }
    if ps.ImGuiEnabled then
      { w with programState := { ps with CameraMouseMovementUpdateEnabled := false },
               window := { w.window with cursorMode := .NORMAL } }
    else
      { w with programState := ps, window := { w.window with cursorMode := .DISABLED } }
  else w

/-- Source `mouse_callback` (lines 1028-1048).  `xpos` and `ypos` are `double`;
the differences are formed in `double` and stored into `float` variables. -/
def mouse_callback (cam : CameraOps) (xpos ypos : ℚ) (w : World) : World :=
  let g := w.globals
  let g := if g.firstMouse then
      { g with lastX := f32 xpos, lastY := f32 ypos, firstMouse := false } else g
  let xoffset := f32 (f64 (xpos - g.lastX))
  let yoffset := f32 (f64 (g.lastY - ypos))
  let g := { g with lastX := f32 xpos, lastY := f32 ypos }
  let sensitivity := f32 (1 / 2)
  let xoffset := f32 (xoffset * sensitivity)
  let yoffset := f32 (yoffset * sensitivity)
  if w.programState.CameraMouseMovementUpdateEnabled then
    { w with globals := g, programState := { w.programState with
        camera := cam.ProcessMouseMovement xoffset yoffset w.programState.camera } }
  else { w with globals := g }

/-- Source `scroll_callback` (lines 1050-1053). -/
def scroll_callback (cam : CameraOps) (_xoffset yoffset : ℚ) (w : World) : World :=
  { w with programState := { w.programState with
      camera := cam.ProcessMouseScroll (f32 yoffset) w.programState.camera } }

/-- Source `framebuffer_size_callback` (lines 1023-1026). -/
def framebuffer_size_callback (width height : ℤ) : List GLCmd :=
  [.viewport 0 0 width height]

/-- What the user does to the widgets of the overlay during one frame: the new
value a widget writes, `none` where the widget is left alone. -/
structure UiInput where
  hdr : Option Bool
  bloom : Option Bool
  exposure : Option ℚ
  gamma : Option ℚ
  speedCoef : Option ℚ
  constant : Option ℚ
  linear : Option ℚ
  quadratic : Option ℚ
  cameraMouseUpdate : Option Bool

/-- Source `DrawImGui` (lines 1055-1133): the object after the widgets have
written into it, and the events of the call. -/
def DrawImGui (ui : UiInput) (ps : ProgramState) : ProgramState × List Ev :=
  let ps := { ps with hdr := ui.hdr.getD ps.hdr }
  let ps := if ps.hdr then
      { ps with bloom := ui.bloom.getD ps.bloom, exposure := ui.exposure.getD ps.exposure,
                gamma := ui.gamma.getD ps.gamma }
    else ps
  let ps := { ps with camera := { ps.camera with speedCoef := ui.speedCoef.getD ps.camera.speedCoef } }
  let ps := { ps with pointLight := { ps.pointLight with
      constant := ui.constant.getD ps.pointLight.constant,
      linear := ui.linear.getD ps.pointLight.linear,
      quadratic := ui.quadratic.getD ps.pointLight.quadratic } }
  let ps := { ps with CameraMouseMovementUpdateEnabled :=
      ui.cameraMouseUpdate.getD ps.CameraMouseMovementUpdateEnabled }
  (ps, [.lib "ImGui_ImplOpenGL3_NewFrame", .lib "ImGui_ImplGlfw_NewFrame", .lib "ImGui::NewFrame",
        .lib "ImGui::Begin Settings", .lib "ImGui::End",
        .lib "ImGui::Begin Camera info", .lib "ImGui::End",
        .lib "ImGui::Render", .gl .renderDrawData])

/-- What `glfwPollEvents` delivers. -/
inductive InputEvent where
  | key (key scancode action mods : ℤ)
  | cursorPos (xpos ypos : ℚ)
  | scroll (xoffset yoffset : ℚ)
  | framebufferSize (width height : ℤ)
  /-- The user asks the window to close; GLFW raises the close flag. -/
  | windowClose

/-- The callback an event runs, and the OpenGL commands it issues. -/
def dispatch (cam : CameraOps) (e : InputEvent) (w : World) : World × List Ev :=
  match e with
  | .key k sc a mo => (key_callback k sc a mo w, [])
  | .cursorPos x y => (mouse_callback cam x y w, [])
  | .scroll x y => (scroll_callback cam x y w, [])
  | .framebufferSize wd ht => (w, (framebuffer_size_callback wd ht).map .gl)
  | .windowClose => ({ w with window := { w.window with shouldClose := true } }, [])

/-- The call `glfwPollEvents`: the pending events run their callbacks, oldest
first. -/
def pollEvents (cam : CameraOps) : List InputEvent → World → World × List Ev
  | [], w => (w, [])
  | e :: es, w =>
    let r := dispatch cam e w
    let r' := pollEvents cam es r.1
    (r'.1, r.2 ++ r'.2)

/-- What the machine supplies during one iteration of the render loop. -/
structure FrameInput where
  /-- The value of `glfwGetTime()`. -/
  time : ℚ
  keys : Keys
  ui : UiInput
  events : List InputEvent

/-- The body of the render loop (lines 644-919). -/
def frame (cam : CameraOps) (m : Machine) (inp : FrameInput) (w : World) : World × List Ev :=
  let currentFrame := f32 inp.time
  let w := { w with globals := { w.globals with
      deltaTime := f32 (currentFrame - w.globals.lastFrame), lastFrame := currentFrame } }
  let w := processInput cam inp.keys w
  let cmds := frameCommands m w.programState w.globals currentFrame
  let w := { w with globals := (renderQuad m.quadName w.globals).1 }
  let ui := if w.programState.ImGuiEnabled then DrawImGui inp.ui w.programState
    else (w.programState, [])
  let w := { w with programState := ui.1 }
  let polled := pollEvents cam inp.events w
  (polled.1,
   [.lib "glfwGetTime"] ++ cmds.map .gl ++ ui.2 ++
     [.lib "glfwSwapBuffers", .lib "glfwPollEvents"] ++ polled.2)

/-- The render loop `while(!glfwWindowShouldClose(window))` run on the recorded
inputs: the world and the events when the loop is left or the inputs are used
up, and whether the loop was left. -/
def renderLoop (cam : CameraOps) (m : Machine) : List FrameInput → World → World × List Ev × Bool
  | [], w => (w, [], w.window.shouldClose)
  | inp :: rest, w =>
    if w.window.shouldClose then (w, [], true)
    else
      let r := frame cam m inp w
      let r' := renderLoop cam m rest r.1
      (r'.1, r.2 ++ r'.2.1, r'.2.2)

/-! ## `main` -/

/-- The outcome of a run of `main` on recorded inputs. -/
structure RunResult where
  /-- The value `main` returns; `none` when the recorded inputs end while the
  render loop is still running. -/
  exitCode : Option ℤ
  events : List Ev
  /-- The world when the run ends, `none` when no `ProgramState` was created. -/
  world : Option World
  /-- The content of `resources/program_state.txt` when the run ends. -/
  stateFile : Option (List Char)

/-- Lines 132-148: GLFW initialisation and window creation. -/
def windowEvents : List Ev :=
  [.lib "glfwInit", .lib "glfwWindowHint", .lib "glfwWindowHint", .lib "glfwWindowHint",
   .lib "glfwCreateWindow"]

/-- Lines 154-164: context, callbacks, cursor capture, and the loader call. -/
def contextEvents : List Ev :=
  [.lib "glfwMakeContextCurrent", .lib "glfwSetFramebufferSizeCallback",
   .lib "glfwSetCursorPosCallback", .lib "glfwSetScrollCallback", .lib "glfwSetKeyCallback",
   .lib "glfwSetInputMode", .lib "gladLoadGLLoader"]

/-- Lines 922-940: everything behind the render loop except the save. -/
def shutdownEvents : List Ev :=
  [.deleteProgramState,
   .lib "ImGui_ImplOpenGL3_Shutdown", .lib "ImGui_ImplGlfw_Shutdown", .lib "ImGui::DestroyContext",
   .gl (.resource "glDeleteVertexArrays" "skyboxVAO"),
   .gl (.resource "glDeleteBuffers" "skyboxVBO"),
   .gl (.resource "glDeleteVertexArrays" "outsideTransparentVerticesVAO"),
   .gl (.resource "glDeleteBuffers" "outsideTransparentVerticesVBO"),
   .gl (.resource "glDeleteVertexArrays" "transparentVAO"),
   .gl (.resource "glDeleteBuffers" "transparentVBO"),
   .gl (.resource "glDeleteVertexArrays" "faceCullingBoxVAO"),
   .gl (.resource "glDeleteBuffers" "faceCullingBoxVBO"),
   .gl (.resource "glDeleteVertexArrays" "metalTextureVerticesVAO"),
   .gl (.resource "glDeleteBuffers" "metalTextureVerticesVBO"),
   .lib "glfwTerminate"]

/-- Lines 169-174: the creation of the `ProgramState` and the cursor release in
case its UI flag is set. -/
def stateEvents (ps : ProgramState) : List Ev :=
  [.lib "stbi_set_flip_vertically_on_load", .newProgramState] ++
    (if ps.ImGuiEnabled then [.lib "glfwSetInputMode"] else [])

/-- The world in which `main` reaches its render loop for the first time: the
constructed `ProgramState` with the scene's point light written into it, the
initial globals, and the cursor mode lines 161 and 172-174 select. -/
def loopEntryWorld (cam : CameraOps) (m : Machine) : World :=
  let ps := ProgramState.new cam m.junk
  { programState := { ps with pointLight := scenePointLight },
    globals := Globals.initial,
    window := ⟨false, if ps.ImGuiEnabled then .NORMAL else .DISABLED⟩ }

/-- The events of `main` from its first statement up to the render loop, when
both start-up checks pass. -/
def startupEvents (cam : CameraOps) (m : Machine) : List Ev :=
  windowEvents ++ contextEvents ++ stateEvents (ProgramState.new cam m.junk) ++ setupEvents m

/-- Source `main`.  `writable` tells whether `SaveToFile` can open its file. -/
def main (cam : CameraOps) (lib : NumText) (m : Machine) (writable : Bool)
    (inputs : List FrameInput) : RunResult :=
  if !m.windowCreated then
    { exitCode := some (-1),
      events := windowEvents ++ [.out "Failed to create GLFW window", .lib "glfwTerminate"],
      world := none,
      stateFile := m.stateFile }
  else if !m.gladLoaded then
    { exitCode := some (-1),
      events := windowEvents ++ contextEvents ++ [.out "Failed to initialize GLAD"],
      world := none,
      stateFile := m.stateFile }
  else
    let r := renderLoop cam m inputs (loopEntryWorld cam m)
    if r.2.2 then
      { exitCode := some 0,
        events := startupEvents cam m ++ r.2.1 ++
          [.saveToFile "resources/program_state.txt" r.1.programState.SaveToFile.2] ++
          shutdownEvents,
        world := some r.1,
        stateFile := if writable then savedFile lib r.1.programState else m.stateFile }
    else
      { exitCode := none,
        events := startupEvents cam m ++ r.2.1,
        world := some r.1,
        stateFile := m.stateFile }

/-- Whether an event is a call of `SaveToFile`. -/
def Ev.isSave : Ev → Bool
  | .saveToFile _ _ => true
  | _ => false

/-- Whether an event belongs to the rendering of a frame: an OpenGL draw call
or the buffer swap. -/
def Ev.isRender : Ev → Bool
  | .gl (.drawArrays _ _ _) => true
  | .gl (.drawModel _ _) => true
  | .lib call => call = "glfwSwapBuffers"
  | _ => false

/-- A machine on which everything works and every image decodes. -/
def goodMachine : Machine where
  windowCreated := true
  gladLoaded := true
  junk := zeroLight
  decode := fun _ => some ⟨64, 64, 3⟩
  framebufferComplete := true
  stateFile := none
  quadName := 7
  wobble := fun _ => f32 (-4 / 10)

/-- An overlay nobody touches. -/
def idleUi : UiInput := ⟨none, none, none, none, none, none, none, none, none⟩

/-- A frame in which nothing is pressed and no event arrives. -/
def idleFrame (t : ℚ) : FrameInput := ⟨t, noKeys, idleUi, []⟩

/-- A frame in which ESC is down. -/
def escapeFrame (t : ℚ) : FrameInput :=
  ⟨t, ⟨true, false, false, false, false, false, false, false⟩, idleUi, []⟩

/-! ## Reading a command stream -/

/-- The draw calls of a frame, told apart by what they draw: an array draw by
the vertex array it reads, a model draw by its model. -/
inductive DrawKind where
  | floor | opaqueBox | windowFace | culledBox | skybox | resolveQuad
  | model (m : SceneModel)
  | unbound
  deriving DecidableEq

/-- The kind of draw a command is in a given state; `none` for a command that
draws nothing. -/
def drawKind (c : GLCmd) (st : GLState) : Option DrawKind :=
  match c with
  | .drawArrays _ _ _ =>
    some (match st.vertexArray with
      | .metalTextureVerticesVAO => .floor
      | .outsideTransparentVerticesVAO => .opaqueBox
      | .transparentVAO => .windowFace
      | .faceCullingBoxVAO => .culledBox
      | .skyboxVAO => .skybox
      | .quadVAO => .resolveQuad
      | .zero => .unbound)
  | .drawModel m _ => some (.model m)
  | _ => none

/-- The draw calls of a command sequence in order, each with the state it is
issued in. -/
def draws (cmds : List GLCmd) (st : GLState) : List (DrawKind × GLState) :=
  (annotate cmds st).filterMap (fun p => (drawKind p.1 p.2).map (fun k => (k, p.2)))

/-- The steps of a frame the render-pass order speaks about: draws and
framebuffer bindings. -/
inductive Landmark where
  | draw (k : DrawKind)
  | bindOffscreen
  | unbindOffscreen
  deriving DecidableEq

/-- The landmark a command is in a given state, if any. -/
def landmark (c : GLCmd) (st : GLState) : Option Landmark :=
  match c with
  | .bindFramebuffer .hdrFBO => some .bindOffscreen
  | .bindFramebuffer .zero => some .unbindOffscreen
  | c => (drawKind c st).map .draw

/-- The landmarks of a command sequence in order, each with the state it is
issued in. -/
def landmarks (cmds : List GLCmd) (st : GLState) : List (Landmark × GLState) :=
  (annotate cmds st).filterMap (fun p => (landmark p.1 p.2).map (fun l => (l, p.2)))

/-- The draws of the scene proper: everything a frame draws except the skybox
and the resolve quad. -/
def sceneDraws : List Landmark :=
  [.draw .floor, .draw .opaqueBox, .draw .windowFace, .draw .culledBox,
   .draw (.model .modelRocket), .draw (.model .modelAstronaut), .draw (.model .modelSun),
   .draw (.model .modelEarth), .draw (.model .modelMars)]

/-- The pipeline state in which `main` reaches its render loop for the first
time. -/
def loopEntryGL (cam : CameraOps) (m : Machine) : GLState :=
  runGL (glCommands (startupEvents cam m)) GLState.fresh

/-- The two draws of the blended pass. -/
def isBlendedDraw (k : DrawKind) : Bool :=
  k = .opaqueBox || k = .windowFace

/-- The blending and culling settings of a pipeline state: blending enabled,
its two factors, culling enabled, the culled face, the front-face winding. -/
def blendCullSettings (st : GLState) : Bool × BlendFactor × BlendFactor × Bool × Face × Winding :=
  (st.blend, st.blendSrc, st.blendDst, st.cullFaceEnabled, st.cullFace, st.frontFace)

/-- The draws of the blended pass among the draws of a command sequence, each
with the blending and culling settings it is issued under. -/
def blendedDraws (cmds : List GLCmd) (st : GLState) :
    List (DrawKind × Bool × BlendFactor × BlendFactor × Bool × Face × Winding) :=
  ((draws cmds st).filter (fun p => isBlendedDraw p.1)).map
    (fun p => (p.1, blendCullSettings p.2))

/-- The number of calls of `SaveToFile` among the events. -/
def countSaves (l : List Ev) : ℕ := l.countP Ev.isSave

/-- Whether a frame asks the window to close: ESC is down when it polls the
keyboard, or a close request is among its events. -/
def FrameInput.closes (inp : FrameInput) : Prop :=
  inp.keys.ESCAPE = true ∨ InputEvent.windowClose ∈ inp.events

/-! ## Culling and shader selection of the draws -/

/-- The culling settings of a pipeline state: culling enabled, the culled face,
the front-face winding. -/
def cullSettings (st : GLState) : Bool × Face × Winding :=
  (st.cullFaceEnabled, st.cullFace, st.frontFace)

/-- The culling settings under which the culled box is drawn, one entry per
draw of it. -/
def culledBoxDraws (cmds : List GLCmd) (st : GLState) : List (Bool × Face × Winding) :=
  ((draws cmds st).filter (fun p => decide (p.1 = DrawKind.culledBox))).map
    (fun p => cullSettings p.2)

/-- The draws of a command sequence in order, each with the program that is
active when it is issued. -/
def drawPrograms (cmds : List GLCmd) (st : GLState) : List (DrawKind × Option Shader) :=
  (draws cmds st).map (fun p => (p.1, p.2.program))

/-- The uniform write a command makes on a shader other than the active
program: the shader written to, the uniform name, and the active program. -/
def strayUniform (c : GLCmd) (st : GLState) : Option (Shader × String × Option Shader) :=
  match c with
  | .setUniform s name _ => if st.program = some s then none else some (s, name, st.program)
  | _ => none

/-- The uniform writes of a command sequence that are made on a shader other
than the active program, in order. -/
def strayUniforms (cmds : List GLCmd) (st : GLState) : List (Shader × String × Option Shader) :=
  (annotate cmds st).filterMap (fun p => strayUniform p.1 p.2)

/-! ## The skybox view matrix -/

/-- The entries of a 4x4 matrix, by row and column. -/
abbrev Matrix4 := Fin 4 → Fin 4 → ℚ

/-- The entries of a 3x3 matrix, by row and column. -/
abbrev Matrix3 := Fin 3 → Fin 3 → ℚ

/-- The row or column of a 4x4 matrix that a row or column of its upper-left
3x3 block is. -/
def blockIndex (i : Fin 3) : Fin 4 := ⟨i.val, Nat.lt_trans i.isLt (by decide)⟩

/-- Modelled from the spec: the conversion `glm::mat3(m)` of a 4x4 matrix, from
the `glm` headers, which are not among the repository sources.  Spec section
4.2, step 5: the skybox uses "only the 3x3 rotational part of the view matrix",
that is, its upper-left block. -/
def mat3 (m : Matrix4) : Matrix3 := fun i j => m (blockIndex i) (blockIndex j)

/-- Modelled from the spec: the conversion `glm::mat4(m)` of a 3x3 matrix, from
the `glm` headers, which are not among the repository sources.  Spec section
4.2, step 5: the result has the "translation stripped"; the 3x3 matrix becomes
the upper-left block and every other entry is the one of the identity
matrix. -/
def mat4 (m : Matrix3) : Matrix4 := fun i j =>
  if h : i.val < 3 ∧ j.val < 3 then m ⟨i.val, h.1⟩ ⟨j.val, h.2⟩
  else if i = j then 1 else 0

/-- The matrix line 889 passes to the skybox shader when
`camera.GetViewMatrix()` returns `V`: `glm::mat4(glm::mat3(V))`. -/
def skyboxView (V : Matrix4) : Matrix4 := mat4 (mat3 V)

/-- The uniform write of line 890, with the matrix as the expression of line
889. -/
def skyboxViewWrite (ps : ProgramState) : GLCmd :=
  .setUniform .skyboxShader "view" (.mat4 (.mat4OfMat3 (.viewOf ps.camera)))

/-! ## Reading the events of the texture loaders -/

/-- The call `loadTexture(path)` as a whole: `generated` is the name
`glGenTextures` stores in the local `textureID`, and the single `return` at the
end of the function hands that variable back. -/
def loadTextureCall (generated : ℕ) (path : String) (data : Option Image) : ℕ × List Ev :=
  let textureID := generated
  (textureID, loadTexture path data)

/-- The call `loadCubemap(faces)` as a whole, in the same way. -/
def loadCubemapCall (generated : ℕ) (decode : String → Option Image) (faces : List String) :
    ℕ × List Ev :=
  let textureID := generated
  (textureID, loadCubemap decode faces)

/-- The targets of the image uploads among the events, in order. -/
def uploads : List Ev → List ImageTarget
  | [] => []
  | .gl (.texImage2D target _ _ _ _) :: es => target :: uploads es
  | _ :: es => uploads es

/-- The lines written to the console among the events, in order. -/
def logged : List Ev → List String
  | [] => []
  | .out text :: es => text :: logged es
  | _ :: es => logged es

/-- The names of the library calls among the events, in order. -/
def libCalls : List Ev → List String
  | [] => []
  | .lib call :: es => call :: libCalls es
  | _ :: es => libCalls es

/-- The upload targets the claim expects of `loadCubemap` for the faces from
index `i` on: `POSITIVE_X + i` for face `i` when it decodes, nothing when it
does not. -/
def expectedUploads (decode : String → Option Image) : List String → ℕ → List ImageTarget
  | [], _ => []
  | face :: faces, i =>
    (if (decode face).isSome then [ImageTarget.CUBE_MAP_POSITIVE_X_plus i] else []) ++
      expectedUploads decode faces (i + 1)

/-- The console lines the claim expects of `loadCubemap`: one per face that
does not decode, in the order of the faces. -/
def expectedLog (decode : String → Option Image) (faces : List String) : List String :=
  (faces.filter (fun face => (decode face).isNone)).map
    (fun face => "Cubemap texture failed to load at path: " ++ face)

/-- A decoder for which the second and third skybox faces fail. -/
def patchyDecode (path : String) : Option Image :=
  if path = "resources/textures/skybox/_back.png" ∨ path = "resources/textures/skybox/_bottom.png"
  then none else some ⟨64, 64, 3⟩

/-! ## Reading the events of a frame -/

/-- Whether a command is the one OpenGL call of `DrawImGui`. -/
def GLCmd.isOverlay : GLCmd → Bool
  | .renderDrawData => true
  | _ => false

/-- Whether an event is one of the calls `DrawImGui` makes. -/
def Ev.isOverlay : Ev → Bool
  | .gl c => c.isOverlay
  | .lib call =>
    decide (call ∈ ["ImGui_ImplOpenGL3_NewFrame", "ImGui_ImplGlfw_NewFrame", "ImGui::NewFrame",
      "ImGui::Begin Settings", "ImGui::End", "ImGui::Begin Camera info", "ImGui::Render"])
  | _ => false

/-- The world of a frame right after its `processInput` call (lines 644-648):
the timing globals updated and the keyboard polled. -/
def afterInput (cam : CameraOps) (inp : FrameInput) (w : World) : World :=
  processInput cam inp.keys
    { w with globals := { w.globals with
        deltaTime := f32 (f32 inp.time - w.globals.lastFrame), lastFrame := f32 inp.time } }

/-- The world of a frame when it reaches `glfwPollEvents` with the overlay
switched off: the one after `processInput`, with the quad of `renderQuad`
created. -/
def beforePoll (cam : CameraOps) (m : Machine) (inp : FrameInput) (w : World) : World :=
  { afterInput cam inp w with
    globals := (renderQuad m.quadName (afterInput cam inp w).globals).1 }

/-- A frame in which nothing is pressed and the window is resized. -/
def resizeFrame (t : ℚ) : FrameInput := ⟨t, noKeys, idleUi, [.framebufferSize 1024 768]⟩

/-! ## Mouse look -/

/-- Modelled from the spec: the member function `Camera::ProcessMouseMovement`
of `learnopengl/camera.h`, which is not among the repository sources, with its
default pitch constraint.  Spec section 4.1: it "adds `dx` to yaw and `dy` to
pitch (pitch clamped to avoid gimbal flip beyond ±89°), then recomputes the
front vector as a function of yaw and pitch".  The additions are `float`
additions; `frontOf` is that function of yaw and pitch. -/
def ProcessMouseMovementSpec (frontOf : ℚ → ℚ → Vec3) (dx dy : ℚ) (c : Camera) : Camera :=
  let yaw := f32 (c.Yaw + dx)
  let pitch := f32 (c.Pitch + dy)
  let pitch := if 89 < pitch then 89 else pitch
  let pitch := if pitch < -89 then -89 else pitch
  { c with Yaw := yaw, Pitch := pitch, Front := frontOf yaw pitch }

/-- The camera operations with `ProcessMouseMovement` as the spec describes it
and the others as given. -/
def withSpecMouse (base : CameraOps) (frontOf : ℚ → ℚ → Vec3) : CameraOps :=
  { base with ProcessMouseMovement := ProcessMouseMovementSpec frontOf }

/-- The world after a sequence of cursor events `(xpos, ypos)`, each handled by
`mouse_callback`, oldest first. -/
def mouseAll (cam : CameraOps) (evs : List (ℚ × ℚ)) (w : World) : World :=
  evs.foldl (fun acc e => mouse_callback cam e.1 e.2 acc) w

/-- A camera that records the latest offsets it was handed: the horizontal one
as its yaw, the vertical one as its pitch. -/
def recordingCamera : CameraOps :=
  { stillCamera with ProcessMouseMovement := fun dx dy c => { c with Yaw := dx, Pitch := dy } }

/-! ## Key events -/

/-- The arguments of one `key_callback` call. -/
structure KeyEvent where
  key : ℤ
  scancode : ℤ
  action : ℤ
  mods : ℤ
  deriving DecidableEq

/-- Whether a key event is a press of F1. -/
def KeyEvent.isF1Press (e : KeyEvent) : Prop :=
  e.key = GLFW_KEY_F1 ∧ e.action = GLFW_PRESS

/-- The world after a sequence of key events, each handled by `key_callback`,
oldest first. -/
def keyAll (evs : List KeyEvent) (w : World) : World :=
  evs.foldl (fun acc e => key_callback e.key e.scancode e.action e.mods acc) w

/-- A press of F1. -/
def f1Press : KeyEvent := ⟨GLFW_KEY_F1, 0, GLFW_PRESS, 0⟩

/-- The post-process settings of a `ProgramState` that `processInput` could be
thought to change: HDR, bloom, exposure and gamma. -/
def toneSettings (ps : ProgramState) : Bool × Bool × ℚ × ℚ :=
  (ps.hdr, ps.bloom, ps.exposure, ps.gamma)

/-- The write of the `"exposure"` uniform of the post-process shader (line
907). -/
def exposureWrite (ps : ProgramState) : GLCmd :=
  .setUniform .screenShader "exposure" (.float ps.exposure)

/-- A poll in which Q and E are both down. -/
def bothQE : Keys := ⟨false, false, false, false, false, false, true, true⟩

/-! ## Pieces of `mouse_callback` -/

/-- The horizontal position the offset of a cursor event is measured from
(lines 1030-1036): on the first event `lastX` has just been assigned
`xpos`, converted to `float`; later it is the stored `lastX`. -/
def mouseOriginX (xpos : ℚ) (g : Globals) : ℚ :=
  if g.firstMouse then f32 xpos else g.lastX

/-- The vertical position the offset of a cursor event is measured from
(lines 1030-1037). -/
def mouseOriginY (ypos : ℚ) (g : Globals) : ℚ :=
  if g.firstMouse then f32 ypos else g.lastY

/-- The arithmetic applied to a coordinate difference `d` (lines 1036-1044):
the `double` difference is converted to `float` on assignment, and the product
with the `float` sensitivity `0.5f` is rounded to `float` again. -/
def mouseOffset (d : ℚ) : ℚ := f32 (f32 (f64 d) * f32 (1 / 2))

/-- A horizontal cursor coordinate that is a `double` but not a `float`:
`1 + 2 ^ (-30)`. -/
def offGridCursor : ℚ := 1073741825 / 1073741824

/-! ## Pipeline state from one iteration to the next -/

/-- The draws of a command sequence in order, each with the depth function it
is issued under. -/
def drawDepthFuncs (cmds : List GLCmd) (st : GLState) : List (DrawKind × DepthFunc) :=
  (draws cmds st).map (fun p => (p.1, p.2.depthFunc))

/-- The pipeline state at the start of each iteration the render loop runs on
the recorded inputs, first iteration first, when the loop is reached in the
state `st`: an iteration starts in the state the commands of the one before
left. -/
def frameStarts (cam : CameraOps) (m : Machine) :
    List FrameInput → World → GLState → List GLState
  | [], _, _ => []
  | inp :: rest, w, st =>
    if w.window.shouldClose then []
    else
      st :: frameStarts cam m rest (frame cam m inp w).1
        (runGL (glCommands (frame cam m inp w).2) st)

/-! ## The default float format of the stream library

`operator<<` writes a `float` with the conversion `%g` and precision 6
(`[facet.num.put.virtuals]` with the default flags of a stream), and
`operator>>` converts the accumulated decimal field to the nearest `float`.
Infinities, NaN and hexadecimal fields are not represented. -/

/-- Evaluation rule for `f32`: once the numerator and denominator of the
argument are known, the integer core decides the result. -/
theorem f32_of_parts (x : ℚ) (n : ℤ) (d : ℕ) (m e : ℤ) (hn : x.num = n) (hd : x.den = d)
    (h : roundParts 24 (-149) n d = (m, e)) : f32 x = (m : ℚ) * 2 ^ e := by
  simp [f32, roundBin, hn, hd, h]

/-- The literal `0.1f`. -/
theorem f32_tenth : f32 (1 / 10) = 13421773 / 134217728 := by
  rw [f32_of_parts _ 1 10 13421773 (-27) (by norm_num) (by norm_num) (by decide)]
  norm_num

/-! ## Effect of the blocks of `processInput` on the file-scope variables -/

@[simp] theorem pollEscape_globals (k : Keys) (w : World) :
    (pollEscape k w).globals = w.globals := by
  unfold pollEscape; split <;> rfl

@[simp] theorem pollEscape_programState (k : Keys) (w : World) :
    (pollEscape k w).programState = w.programState := by
  unfold pollEscape; split <;> rfl

@[simp] theorem pollMove_globals (cam : CameraOps) (b : Bool) (d : CameraMovement) (w : World) :
    (pollMove cam b d w).globals = w.globals := by
  unfold pollMove; split <;> rfl

@[simp] theorem pollMove_window (cam : CameraOps) (b : Bool) (d : CameraMovement) (w : World) :
    (pollMove cam b d w).window = w.window := by
  unfold pollMove; split <;> rfl

@[simp] theorem pollBlinn_programState (k : Keys) (w : World) :
    (pollBlinn k w).programState = w.programState := by
  unfold pollBlinn; cases k.B <;> cases w.globals.blinnKeyPressed <;> rfl

@[simp] theorem pollBlinn_window (k : Keys) (w : World) :
    (pollBlinn k w).window = w.window := by
  unfold pollBlinn; cases k.B <;> cases w.globals.blinnKeyPressed <;> rfl

@[simp] theorem pollBlinn_exposure (k : Keys) (w : World) :
    (pollBlinn k w).globals.exposure = w.globals.exposure := by
  unfold pollBlinn; cases k.B <;> cases w.globals.blinnKeyPressed <;> rfl

theorem pollBlinn_blinnKeyPressed (k : Keys) (w : World) :
    (pollBlinn k w).globals.blinnKeyPressed = k.B := by
  unfold pollBlinn; cases hB : k.B <;> cases hL : w.globals.blinnKeyPressed <;> simp [hL]

theorem pollBlinn_blinn (k : Keys) (w : World) :
    (pollBlinn k w).globals.blinn =
      if k.B && !w.globals.blinnKeyPressed then !w.globals.blinn else w.globals.blinn := by
  unfold pollBlinn; cases hB : k.B <;> cases hL : w.globals.blinnKeyPressed <;> simp [hL]

@[simp] theorem pollExposure_programState (k : Keys) (w : World) :
    (pollExposure k w).programState = w.programState := by
  unfold pollExposure; split_ifs <;> rfl

@[simp] theorem pollExposure_window (k : Keys) (w : World) :
    (pollExposure k w).window = w.window := by
  unfold pollExposure; split_ifs <;> rfl

@[simp] theorem pollExposure_blinn (k : Keys) (w : World) :
    (pollExposure k w).globals.blinn = w.globals.blinn := by
  unfold pollExposure; split_ifs <;> rfl

@[simp] theorem pollExposure_blinnKeyPressed (k : Keys) (w : World) :
    (pollExposure k w).globals.blinnKeyPressed = w.globals.blinnKeyPressed := by
  unfold pollExposure; split_ifs <;> rfl

theorem pollExposure_exposure (k : Keys) (w : World) :
    (pollExposure k w).globals.exposure =
      if k.Q then (if 0 < w.globals.exposure then f32 (w.globals.exposure - f32 (1 / 10)) else 0)
      else if k.E then f32 (w.globals.exposure + f32 (1 / 10)) else w.globals.exposure := by
  unfold pollExposure; split_ifs <;> rfl

/-! ## The Blinn-Phong latch -/

theorem processInput_blinnKeyPressed (cam : CameraOps) (k : Keys) (w : World) :
    (processInput cam k w).globals.blinnKeyPressed = k.B := by
  simp [processInput, pollBlinn_blinnKeyPressed]

theorem processInput_blinn (cam : CameraOps) (k : Keys) (w : World) :
    (processInput cam k w).globals.blinn =
      if k.B && !w.globals.blinnKeyPressed then !w.globals.blinn else w.globals.blinn := by
  simp [processInput, pollBlinn_blinn]

theorem processInput_exposure (cam : CameraOps) (k : Keys) (w : World) :
    (processInput cam k w).globals.exposure =
      if k.Q then (if 0 < w.globals.exposure then f32 (w.globals.exposure - f32 (1 / 10)) else 0)
      else if k.E then f32 (w.globals.exposure + f32 (1 / 10)) else w.globals.exposure := by
  simp [processInput, pollExposure_exposure]

theorem pollAll_append (cam : CameraOps) (xs ys : List Keys) (w : World) :
    pollAll cam (xs ++ ys) w = pollAll cam ys (pollAll cam xs w) := by
  simp [pollAll, List.foldl_append]

theorem pollAll_cons (cam : CameraOps) (k : Keys) (ks : List Keys) (w : World) :
    pollAll cam (k :: ks) w = pollAll cam ks (processInput cam k w) := rfl

/-- After any polls the latch records the B state of the latest poll. -/
theorem latch_after_polls (cam : CameraOps) (pre : List Keys) (w : World)
    (h0 : w.globals.blinnKeyPressed = false) :
    (pollAll cam pre w).globals.blinnKeyPressed = lastB pre := by
  rcases List.eq_nil_or_concat pre with h | ⟨xs, k, h⟩
  · subst h; simpa [pollAll, lastB] using h0
  · subst h
    rw [List.concat_eq_append, pollAll_append]
    simp [pollAll, lastB, processInput_blinnKeyPressed]

/-- While B stays down and the latch is set, polling changes neither `blinn`
nor the latch. -/
theorem held_polls_keep_blinn (cam : CameraOps) (run : List Keys)
    (hrun : ∀ k ∈ run, k.B = true) (s : World) (hs : s.globals.blinnKeyPressed = true) :
    (pollAll cam run s).globals.blinn = s.globals.blinn := by
  induction run generalizing s with
  | nil => rfl
  | cons k ks ih =>
    rw [pollAll_cons, ih (fun k' hk' => hrun k' (List.mem_cons_of_mem _ hk'))]
    · simp [processInput_blinn, hs]
    · rw [processInput_blinnKeyPressed]; exact hrun k (List.mem_cons_self _ _)

/-- C1. Starting with the latch clear, take any polls `pre` whose latest one
(if any) saw B released, followed by a run of polls that all see B pressed.
After the first poll of the run `blinn` is the negation of its value before the
run, and it still has that value after each further poll of the run: one flip
per press, on the first poll, and a new flip after every release. -/
theorem blinn_flips_once_per_press (cam : CameraOps) (w : World) (pre run : List Keys)
    (h0 : w.globals.blinnKeyPressed = false)
    (hpre : ∀ k, pre.getLast? = some k → k.B = false)
    (hrun : ∀ k ∈ run, k.B = true) (j : ℕ) (hj : j < run.length) :
    (pollAll cam (pre ++ run.take (j + 1)) w).globals.blinn =
      !(pollAll cam pre w).globals.blinn := by
  have hlatch : (pollAll cam pre w).globals.blinnKeyPressed = false := by
    rw [latch_after_polls cam pre w h0]
    unfold lastB
    cases hl : pre.getLast? with
    | none => rfl
    | some k => exact hpre k hl
  cases run with
  | nil => simp at hj
  | cons k ks =>
    have hk : k.B = true := hrun k (List.mem_cons_self _ _)
    rw [pollAll_append, List.take_succ_cons, pollAll_cons]
    rw [held_polls_keep_blinn cam (ks.take j)
      (fun k' hk' => hrun k' (List.mem_cons_of_mem _ (List.mem_of_mem_take hk')))]
    · simp [processInput_blinn, hk, hlatch]
    · rw [processInput_blinnKeyPressed]; exact hk

/-- Witness for C1: release, then hold B for three polls, from the start of the
program. -/
theorem blinn_flips_once_per_press_witness :
    (pollAll stillCamera ([noKeys] ++ [onlyB, onlyB, onlyB].take (2 + 1)) startWorld).globals.blinn =
      !(pollAll stillCamera [noKeys] startWorld).globals.blinn :=
  blinn_flips_once_per_press stillCamera startWorld [noKeys] [onlyB, onlyB, onlyB] rfl
    (by intro k hk; simp at hk; subst hk; rfl)
    (by intro k hk; simp at hk; subst hk; rfl) 2 (by decide)

/-! ## The exposure keys -/

theorem pollAll_onlyQ_exposure (cam : CameraOps) (n : ℕ) (w : World) :
    (pollAll cam (List.replicate n onlyQ) w).globals.exposure = qStep^[n] w.globals.exposure := by
  induction n generalizing w with
  | zero => rfl
  | succ n ih =>
    rw [List.replicate_succ, pollAll_cons, ih, Function.iterate_succ_apply]
    simp [processInput_exposure, onlyQ, qStep]

/-- Evaluation rule for one decrease step from a positive exposure. -/
theorem qStep_eval (e x : ℚ) (n : ℤ) (d : ℕ) (m ex : ℤ) (hpos : 0 < e)
    (hx : e - 13421773 / 134217728 = x) (hn : x.num = n) (hd : x.den = d)
    (h : roundParts 24 (-149) n d = (m, ex)) : qStep e = (m : ℚ) * 2 ^ ex := by
  rw [qStep, if_pos hpos, f32_tenth, hx]
  exact f32_of_parts x n d m ex hn hd h

/-- The global `exposure` after ten consecutive polls with Q down, from its
initial value `1.0f`. -/
theorem qStep_ten_from_one : qStep^[10] 1 = -5 / 67108864 := by
  have h1 : qStep (1) = 7549747 / 8388608 := by
    rw [qStep_eval (1) (120795955 / 134217728) (120795955) 134217728 15099494 (-24) (by norm_num) (by norm_num) (by norm_num)
      (by norm_num) (by decide)]
    norm_num
  have h2 : qStep (7549747 / 8388608) = 3355443 / 4194304 := by
    rw [qStep_eval (7549747 / 8388608) (107374179 / 134217728) (107374179) 134217728 13421772 (-24) (by norm_num) (by norm_num) (by norm_num)
      (by norm_num) (by decide)]
    norm_num
  have h3 : qStep (3355443 / 4194304) = 5872025 / 8388608 := by
    rw [qStep_eval (3355443 / 4194304) (93952403 / 134217728) (93952403) 134217728 11744050 (-24) (by norm_num) (by norm_num) (by norm_num)
      (by norm_num) (by decide)]
    norm_num
  have h4 : qStep (5872025 / 8388608) = 1258291 / 2097152 := by
    rw [qStep_eval (5872025 / 8388608) (80530627 / 134217728) (80530627) 134217728 10066328 (-24) (by norm_num) (by norm_num) (by norm_num)
      (by norm_num) (by decide)]
    norm_num
  have h5 : qStep (1258291 / 2097152) = 16777213 / 33554432 := by
    rw [qStep_eval (1258291 / 2097152) (67108851 / 134217728) (67108851) 134217728 16777213 (-25) (by norm_num) (by norm_num) (by norm_num)
      (by norm_num) (by decide)]
    norm_num
  have h6 : qStep (16777213 / 33554432) = 6710885 / 16777216 := by
    rw [qStep_eval (16777213 / 33554432) (53687079 / 134217728) (53687079) 134217728 13421770 (-25) (by norm_num) (by norm_num) (by norm_num)
      (by norm_num) (by decide)]
    norm_num
  have h7 : qStep (6710885 / 16777216) = 10066327 / 33554432 := by
    rw [qStep_eval (6710885 / 16777216) (40265307 / 134217728) (40265307) 134217728 10066327 (-25) (by norm_num) (by norm_num) (by norm_num)
      (by norm_num) (by decide)]
    norm_num
  have h8 : qStep (10066327 / 33554432) = 1677721 / 8388608 := by
    rw [qStep_eval (10066327 / 33554432) (26843535 / 134217728) (26843535) 134217728 13421768 (-26) (by norm_num) (by norm_num) (by norm_num)
      (by norm_num) (by decide)]
    norm_num
  have h9 : qStep (1677721 / 8388608) = 13421763 / 134217728 := by
    rw [qStep_eval (1677721 / 8388608) (13421763 / 134217728) (13421763) 134217728 13421763 (-27) (by norm_num) (by norm_num) (by norm_num)
      (by norm_num) (by decide)]
    norm_num
  have h10 : qStep (13421763 / 134217728) = -5 / 67108864 := by
    rw [qStep_eval (13421763 / 134217728) (-5 / 67108864) (-5) 67108864 (-10485760) (-47) (by norm_num) (by norm_num) (by norm_num)
      (by norm_num) (by decide)]
    norm_num
  simp only [Function.iterate_succ, Function.iterate_zero, Function.comp_apply, id_eq]
  rw [h1, h2, h3, h4, h5, h6, h7, h8, h9, h10]

/-- C2 fails on the code.  From the initial globals (`exposure = 1.0f`, which is
non-negative), ten consecutive `processInput` polls with Q held leave the global
`exposure` at `-5 / 2 ^ 26`, a negative value: the test `exposure > 0.0f` is made
before the subtraction of `0.1f`, not after it. -/
theorem exposure_negative_after_ten_polls (cam : CameraOps) (ps : ProgramState) (win : Window) :
    0 ≤ Globals.initial.exposure ∧
    (pollAll cam (List.replicate 10 onlyQ) ⟨ps, Globals.initial, win⟩).globals.exposure
      = -5 / 67108864 ∧
    (pollAll cam (List.replicate 10 onlyQ) ⟨ps, Globals.initial, win⟩).globals.exposure < 0 := by
  have h : (pollAll cam (List.replicate 10 onlyQ) ⟨ps, Globals.initial, win⟩).globals.exposure
      = -5 / 67108864 := by
    rw [pollAll_onlyQ_exposure]
    exact qStep_ten_from_one
  refine ⟨by simp [Globals.initial], h, ?_⟩
  rw [h]; norm_num

/-! ## Persisted state -/

theorem extractFloat_failed (lib : NumText) (st : IStream) (x : ℚ) (h : st.failbit = true) :
    extractFloat lib st x = (st, x) := by
  simp [extractFloat, h]

theorem extractBool_failed (st : IStream) (b : Bool) (h : st.failbit = true) :
    extractBool st b = (st, b) := by
  simp [extractBool, h]

theorem extractFloat_eof (lib : NumText) (st : IStream) (x : ℚ) (h : st.failbit = false)
    (hb : skipWs st.buf = []) : extractFloat lib st x = (⟨[], true⟩, x) := by
  simp [extractFloat, h, hb]

theorem extractBool_eof (st : IStream) (b : Bool) (h : st.failbit = false)
    (hb : skipWs st.buf = []) : extractBool st b = (⟨[], true⟩, b) := by
  simp [extractBool, h, hb]

theorem loadFields_eq_extractAll (lib : NumText) (st : IStream) (s : ProgramState) :
    loadFields lib st s = extractAll lib Field.all (st, s) := rfl

theorem extract_failed (lib : NumText) (f : Field) (a : IStream × ProgramState)
    (h : a.1.failbit = true) : f.extract lib a = a := by
  obtain ⟨st, s⟩ := a
  cases f <;> simp [Field.extract, extractFloat_failed lib st _ h, extractBool_failed st _ h]

theorem extractAll_failed (lib : NumText) (fs : List Field) (a : IStream × ProgramState)
    (h : a.1.failbit = true) : extractAll lib fs a = a := by
  induction fs with
  | nil => rfl
  | cons f fs ih =>
    show extractAll lib fs (f.extract lib a) = a
    rw [extract_failed lib f a h, ih]

theorem extract_eof (lib : NumText) (f : Field) (a : IStream × ProgramState)
    (h : a.1.failbit = false) (hb : skipWs a.1.buf = []) :
    f.extract lib a = (⟨[], true⟩, a.2) := by
  obtain ⟨st, s⟩ := a
  cases f <;> simp [Field.extract, extractFloat_eof lib st _ h hb, extractBool_eof st _ h hb]

theorem item_extract_ne (lib : NumText) (f g : Field) (a : IStream × ProgramState)
    (hne : g ≠ f) : g.item (f.extract lib a).2 = g.item a.2 := by
  cases f <;> cases g <;> first | exact absurd rfl hne | rfl

theorem unsaved_extract (lib : NumText) (f : Field) (a : IStream × ProgramState) :
    unsaved (f.extract lib a).2 = unsaved a.2 := by
  cases f <;> rfl

theorem item_extractAll_of_not_mem (lib : NumText) (g : Field) (fs : List Field)
    (a : IStream × ProgramState) (hg : g ∉ fs) :
    g.item (extractAll lib fs a).2 = g.item a.2 := by
  induction fs generalizing a with
  | nil => rfl
  | cons f fs ih =>
    show g.item (extractAll lib fs (f.extract lib a)).2 = g.item a.2
    rw [ih _ (fun h => hg (List.mem_cons_of_mem _ h))]
    exact item_extract_ne lib f g a (fun h => hg (h ▸ List.mem_cons_self _ _))

theorem unsaved_extractAll (lib : NumText) (fs : List Field) (a : IStream × ProgramState) :
    unsaved (extractAll lib fs a).2 = unsaved a.2 := by
  induction fs generalizing a with
  | nil => rfl
  | cons f fs ih =>
    show unsaved (extractAll lib fs (f.extract lib a)).2 = unsaved a.2
    rw [ih, unsaved_extract]

theorem extractAll_append (lib : NumText) (xs ys : List Field) (a : IStream × ProgramState) :
    extractAll lib (xs ++ ys) a = extractAll lib ys (extractAll lib xs a) := by
  simp [extractAll, List.foldl_append]

theorem Field.all_nodup : Field.all.Nodup := by decide

theorem load_eq_split (lib : NumText) (content : List Char) (s : ProgramState) (n : ℕ) :
    s.LoadFromFile lib (some content) =
      (extractAll lib (Field.all.drop n) (loadUpTo lib content s n)).2 := by
  show (loadFields lib ⟨content, false⟩ s).2 = _
  rw [loadFields_eq_extractAll, loadUpTo, ← extractAll_append, List.take_append_drop]

/-- Once the stream has failed after `n` extractions, the load returns the
object as those `n` extractions left it. -/
theorem load_of_failed (lib : NumText) (content : List Char) (s : ProgramState) (n : ℕ)
    (h : (loadUpTo lib content s n).1.failbit = true) :
    s.LoadFromFile lib (some content) = (loadUpTo lib content s n).2 := by
  rw [load_eq_split lib content s n, extractAll_failed _ _ _ h]

theorem item_loadUpTo_of_mem_drop (lib : NumText) (content : List Char) (s : ProgramState)
    (n : ℕ) (f : Field) (hf : f ∈ Field.all.drop n) :
    f.item (loadUpTo lib content s n).2 = f.item s := by
  refine item_extractAll_of_not_mem lib f _ _ (fun hmem => ?_)
  exact (List.disjoint_take_drop Field.all_nodup (le_refl n)) hmem hf

theorem loadUpTo_succ (lib : NumText) (content : List Char) (s : ProgramState) (n : ℕ)
    (f : Field) (hf : Field.all[n]? = some f) :
    loadUpTo lib content s (n + 1) = f.extract lib (loadUpTo lib content s n) := by
  have hn : n < Field.all.length := by
    rcases Nat.lt_or_ge n Field.all.length with h | h
    · exact h
    · rw [List.getElem?_eq_none h] at hf; cases hf
  have hget : Field.all[n] = f := by
    rw [List.getElem?_eq_getElem hn] at hf
    exact Option.some.inj hf
  unfold loadUpTo
  rw [List.take_succ, List.getElem?_eq_getElem hn, hget, extractAll_append]
  rfl

theorem plainText_readsBack_zero : ReadsBack plainText (fun x => (⌊x⌋ : ℚ)) 0 := by
  intro rest v
  have hp : plainText.putFloat 0 = ['0'] := by decide
  rw [hp]
  simp [plainText, extractFloat, skipWs, isSpace, getLong, scanDigits, digitVal]

theorem plainText_readsBack_three : ReadsBack plainText (fun x => (⌊x⌋ : ℚ)) 3 := by
  intro rest v
  have hp : plainText.putFloat 3 = ['3'] := by decide
  rw [hp]
  simp [plainText, extractFloat, skipWs, isSpace, getLong, scanDigits, digitVal]

theorem plainText_readsBack_minus_one : ReadsBack plainText (fun x => (⌊x⌋ : ℚ)) (-1) := by
  intro rest v
  have hp : plainText.putFloat (-1) = ['-', '1'] := by decide
  have hfl : ⌊(-1 : ℚ)⌋ = -1 := by exact_mod_cast @Int.floor_intCast ℚ _ _ (-1)
  rw [hp]
  simp [plainText, extractFloat, skipWs, isSpace, getLong, scanDigits, digitVal, hfl]

/-! ### The default float format on sample values -/

/-- C4. `SaveToFile` returns the object as it received it; its insertions are
the ten persisted values in the fixed order (clear colour r, g, b, the UI flag,
camera position x, y, z, camera front x, y, z), each followed by one newline
character and nothing else, so the text is the ten value texts each ended by a
newline; and two states that agree on those ten values produce the same
insertions, whatever their other fields hold. -/
theorem saveToFile_writes_ten_lines (lib : NumText) (s : ProgramState) :
    s.SaveToFile.1 = s ∧
    s.SaveToFile.2 = Field.all.flatMap (fun f => [f.item s, OutItem.char '\n']) ∧
    Field.all.length = 10 ∧
    s.SaveToFile.2.length = 20 ∧
    outText lib s.SaveToFile.2 = Field.all.flatMap (fun f => (f.item s).text lib ++ ['\n']) ∧
    (∀ s' : ProgramState, (∀ f ∈ Field.all, f.item s' = f.item s) →
      s'.SaveToFile.2 = s.SaveToFile.2) := by
  refine ⟨rfl, rfl, rfl, rfl, ?_, ?_⟩
  · simp [ProgramState.SaveToFile, outText, OutItem.text, Field.all, Field.item,
      List.flatMap_cons]
  · intro s' h
    have e : ∀ t : ProgramState,
        t.SaveToFile.2 = Field.all.flatMap (fun f => [f.item t, OutItem.char '\n']) :=
      fun _ => rfl
    rw [e s', e s]
    exact List.flatMap_congr (fun f hf => by rw [h f hf])

/-- Witness for C4: switching on HDR and bloom does not change what is
written. -/
theorem saveToFile_writes_ten_lines_witness :
    ({ startWorld.programState with hdr := true, bloom := true } : ProgramState).SaveToFile.2
      = startWorld.programState.SaveToFile.2 :=
  (saveToFile_writes_ten_lines plainText startWorld.programState).2.2.2.2.2
    { startWorld.programState with hdr := true, bloom := true } (fun _ _ => rfl)

/-- C5 fails on the code: a fresh `ProgramState` has its camera at `z = 3`; loading
a file whose seventh line is not a number stops the parse there (the stream is
good after six extractions and failed after seven), yet the seventh field, camera
position `z`, does not keep its value: the failed conversion stores zero. -/
theorem load_overwrites_field_at_bad_text :
    startWorld.programState.camera.Position.z = 3 ∧
    (loadUpTo plainText brokenFile startWorld.programState 6).1.failbit = false ∧
    (loadUpTo plainText brokenFile startWorld.programState 7).1.failbit = true ∧
    (startWorld.programState.LoadFromFile plainText (some brokenFile)).camera.Position.z = 0 ∧
    (startWorld.programState.LoadFromFile plainText (some brokenFile)).camera.Position.z
      ≠ startWorld.programState.camera.Position.z := by
  refine ⟨rfl, rfl, rfl, rfl, ?_⟩
  have h0 : (startWorld.programState.LoadFromFile plainText (some brokenFile)).camera.Position.z
      = 0 := rfl
  have h3 : startWorld.programState.camera.Position.z = 3 := rfl
  rw [h0, h3]; norm_num

/-- C5 as amended.  `LoadFromFile` extracts into the ten persisted fields in the
order in which `SaveToFile` inserts them; a file that cannot be opened leaves the
object as it was; no load touches anything but the ten fields; and when parsing
has stopped in front of field `n` (the stream has already failed, or only
whitespace is left), every field from `n` on keeps the value it had before the
call. -/
theorem load_keeps_fields_from_stop (lib : NumText) (content : List Char) (s : ProgramState)
    (n : ℕ) (hstop : StoppedBefore lib content s n) :
    (∀ st, loadFields lib st s = extractAll lib Field.all (st, s)) ∧
    s.SaveToFile.2 = Field.all.flatMap (fun f => [f.item s, OutItem.char '\n']) ∧
    s.LoadFromFile lib none = s ∧
    (∀ file, unsaved (s.LoadFromFile lib file) = unsaved s) ∧
    (∀ f ∈ Field.all.drop n, f.item (s.LoadFromFile lib (some content)) = f.item s) := by
  refine ⟨fun st => loadFields_eq_extractAll lib st s, ?_, ?_, ?_, ?_⟩
  · rfl
  · rfl
  · intro file
    cases file with
    | none => rfl
    | some c =>
      show unsaved (loadFields lib ⟨c, false⟩ s).2 = unsaved s
      rw [loadFields_eq_extractAll, unsaved_extractAll]
  · intro f hf
    rcases hstop with hfail | ⟨hok, hws⟩
    · rw [load_of_failed lib content s n hfail]
      exact item_loadUpTo_of_mem_drop lib content s n f hf
    · cases hd : Field.all.drop n with
      | nil => rw [hd] at hf; cases hf
      | cons g gs =>
        have hg : Field.all[n]? = some g := by
          have := List.head?_drop Field.all n
          rw [hd] at this
          simpa using this.symm
        have hnext := loadUpTo_succ lib content s n g hg
        rw [extract_eof lib g _ hok hws] at hnext
        have hfail : (loadUpTo lib content s (n + 1)).1.failbit = true := by rw [hnext]
        rw [load_of_failed lib content s (n + 1) hfail, hnext]
        exact item_loadUpTo_of_mem_drop lib content s n f hf

/-- Witness for C5 as amended: in the file with a bad seventh line the stream has
failed after seven extractions, and the camera front vector keeps its default. -/
theorem load_keeps_fields_from_stop_witness :
    StoppedBefore plainText brokenFile startWorld.programState 7 ∧
    Field.frontZ.item (startWorld.programState.LoadFromFile plainText (some brokenFile))
      = Field.frontZ.item startWorld.programState :=
  ⟨Or.inl rfl,
   (load_keeps_fields_from_stop plainText brokenFile startWorld.programState 7
      (Or.inl rfl)).2.2.2.2 Field.frontZ (by decide)⟩

/-! ## Start-up defaults -/

/-- C6. When both start-up checks pass, the world `main` carries into its
render loop holds a `ProgramState` with clear colour `(0, 0, 0)`, the UI flag
off and (given that `Camera(position)` stores its argument as `Position`) the
camera at `(0, 0, 3)`; this world is the same whatever
`resources/program_state.txt` contains or whether it exists, because `main`
never reads it. -/
theorem loop_entry_defaults (cam : CameraOps) (lib : NumText) (m : Machine) (writable : Bool)
    (hcam : ∀ p, (cam.construct p).Position = p)
    (hw : m.windowCreated = true) (hg : m.gladLoaded = true) :
    (main cam lib m writable []).world = some (loopEntryWorld cam m) ∧
    (loopEntryWorld cam m).programState.clearColor = ⟨0, 0, 0⟩ ∧
    (loopEntryWorld cam m).programState.ImGuiEnabled = false ∧
    (loopEntryWorld cam m).programState.camera.Position = ⟨0, 0, 3⟩ ∧
    (∀ file : Option (List Char),
      loopEntryWorld cam { m with stateFile := file } = loopEntryWorld cam m) := by
  refine ⟨?_, rfl, rfl, ?_, fun _ => rfl⟩
  · simp [main, hw, hg, renderLoop, loopEntryWorld, ProgramState.new]
  · exact hcam _

/-- Witness for C6: the machine on which everything works, with the still
camera. -/
theorem loop_entry_defaults_witness :
    (main stillCamera plainText goodMachine true []).world
      = some (loopEntryWorld stillCamera goodMachine) ∧
    (loopEntryWorld stillCamera goodMachine).programState.clearColor = ⟨0, 0, 0⟩ ∧
    (loopEntryWorld stillCamera goodMachine).programState.ImGuiEnabled = false ∧
    (loopEntryWorld stillCamera goodMachine).programState.camera.Position = ⟨0, 0, 3⟩ ∧
    (∀ file : Option (List Char),
      loopEntryWorld stillCamera { goodMachine with stateFile := file }
        = loopEntryWorld stillCamera goodMachine) :=
  loop_entry_defaults stillCamera plainText goodMachine true (fun _ => rfl) rfl rfl

/-! ## The F1 key -/

/-- C8. An F1 press negates `ImGuiEnabled`.  When that opens the UI, the cursor
becomes free and the mouse-look flag is cleared; when it closes the UI, the
cursor becomes captured and the mouse-look flag stays as it was.  Nothing else
changes either way, and any other key or action leaves the whole world as it
was. -/
theorem key_callback_F1 (key scancode action mods : ℤ) (w : World) :
    (key = GLFW_KEY_F1 ∧ action = GLFW_PRESS →
      (key_callback key scancode action mods w).programState.ImGuiEnabled
        = !w.programState.ImGuiEnabled) ∧
    (key = GLFW_KEY_F1 ∧ action = GLFW_PRESS → w.programState.ImGuiEnabled = false →
      key_callback key scancode action mods w =
        { w with
          programState := { w.programState with
            ImGuiEnabled := true, CameraMouseMovementUpdateEnabled := false },
          window := { w.window with cursorMode := .NORMAL } }) ∧
    (key = GLFW_KEY_F1 ∧ action = GLFW_PRESS → w.programState.ImGuiEnabled = true →
      key_callback key scancode action mods w =
        { w with
          programState := { w.programState with ImGuiEnabled := false },
          window := { w.window with cursorMode := .DISABLED } }) ∧
    (¬(key = GLFW_KEY_F1 ∧ action = GLFW_PRESS) →
      key_callback key scancode action mods w = w) := by
  refine ⟨?_, ?_, ?_, ?_⟩
  · intro h
    unfold key_callback
    rw [if_pos h]
    cases w.programState.ImGuiEnabled <;> rfl
  · intro h he
    unfold key_callback
    rw [if_pos h]
    simp [he]
  · intro h he
    unfold key_callback
    rw [if_pos h]
    simp [he]
  · intro h
    unfold key_callback
    rw [if_neg h]

/-- Witness for C8: F1 pressed on the world of a fresh start opens the UI. -/
theorem key_callback_F1_witness :
    (key_callback GLFW_KEY_F1 0 GLFW_PRESS 0 startWorld).programState.ImGuiEnabled
      = !startWorld.programState.ImGuiEnabled :=
  (key_callback_F1 GLFW_KEY_F1 0 GLFW_PRESS 0 startWorld).1 ⟨rfl, rfl⟩

/-! ## Render-pass order -/

/-- The draws and framebuffer bindings of one iteration, in order, each with the
framebuffer bound when it is issued.  Only the first entry depends on the state
the iteration starts in. -/
theorem frame_timeline (m : Machine) (ps : ProgramState) (g : Globals) (t : ℚ) (st0 : GLState) :
    (landmarks (frameCommands m ps g t) st0).map (fun p => (p.1, p.2.framebuffer)) =
      [(.bindOffscreen, st0.framebuffer), (.draw .floor, .hdrFBO), (.draw .opaqueBox, .hdrFBO),
       (.draw (.model .modelRocket), .hdrFBO), (.draw .windowFace, .hdrFBO),
       (.draw .culledBox, .hdrFBO), (.draw (.model .modelAstronaut), .hdrFBO),
       (.draw (.model .modelSun), .hdrFBO), (.draw (.model .modelEarth), .hdrFBO),
       (.draw (.model .modelRocket), .hdrFBO), (.draw (.model .modelMars), .hdrFBO),
       (.draw (.model .modelAstronaut), .hdrFBO), (.draw (.model .modelAstronaut), .hdrFBO),
       (.draw .skybox, .hdrFBO), (.unbindOffscreen, .hdrFBO), (.draw .resolveQuad, .zero)] := by
  unfold frameCommands renderQuad
  split <;> rfl

/-- C7. In the commands of one iteration of the render loop, for every program
state, time and starting pipeline state: the landmarks split as `pre`, the
skybox draw, `post`, where every scene draw (floor, opaque box, window face,
culled box and each model) occurs in `pre` and none in `post`, `pre` contains
neither the unbinding of the off-screen framebuffer nor the resolve quad draw,
`post` is exactly that unbinding followed by the resolve quad draw, and the
skybox draw is issued with the off-screen framebuffer `hdrFBO` bound. -/
theorem skybox_after_scene_before_resolve (m : Machine) (ps : ProgramState) (g : Globals)
    (t : ℚ) (st0 : GLState) :
    (∃ pre post : List Landmark,
      (landmarks (frameCommands m ps g t) st0).map Prod.fst
        = pre ++ Landmark.draw .skybox :: post ∧
      (∀ l ∈ sceneDraws, l ∈ pre ∧ l ∉ post) ∧
      Landmark.unbindOffscreen ∉ pre ∧ Landmark.draw .resolveQuad ∉ pre ∧
      Landmark.draw .skybox ∉ pre ∧
      post = [Landmark.unbindOffscreen, Landmark.draw .resolveQuad]) ∧
    (∀ p ∈ landmarks (frameCommands m ps g t) st0,
      p.1 = Landmark.draw .skybox → p.2.framebuffer = .hdrFBO) := by
  have h := frame_timeline m ps g t st0
  constructor
  · refine ⟨[.bindOffscreen, .draw .floor, .draw .opaqueBox, .draw (.model .modelRocket),
        .draw .windowFace, .draw .culledBox, .draw (.model .modelAstronaut),
        .draw (.model .modelSun), .draw (.model .modelEarth), .draw (.model .modelRocket),
        .draw (.model .modelMars), .draw (.model .modelAstronaut),
        .draw (.model .modelAstronaut)],
      [.unbindOffscreen, .draw .resolveQuad], ?_, by decide, by decide, by decide, by decide, rfl⟩
    have h1 := congrArg (List.map Prod.fst) h
    rw [List.map_map] at h1
    exact h1
  · intro p hp hskybox
    have hmem : (p.1, p.2.framebuffer) ∈
        (landmarks (frameCommands m ps g t) st0).map (fun p => (p.1, p.2.framebuffer)) :=
      List.mem_map.mpr ⟨p, hp, rfl⟩
    rw [h, hskybox] at hmem
    simp at hmem
    exact hmem

/-! ## Pipeline state at the blended draws -/

theorem glCommands_append (xs ys : List Ev) :
    glCommands (xs ++ ys) = glCommands xs ++ glCommands ys := by
  induction xs with
  | nil => rfl
  | cons e es ih => cases e <;> simp [glCommands, ih]

theorem runGL_append (xs ys : List GLCmd) (st : GLState) :
    runGL (xs ++ ys) st = runGL ys (runGL xs st) := by
  simp [runGL, List.foldl_append]

theorem runGL_loadTexture (path : String) (data : Option Image) (st : GLState) :
    runGL (glCommands (loadTexture path data)) st = st := by
  cases data <;> rfl

theorem runGL_loadCubemapFaces (decode : String → Option Image) (faces : List String) (i : ℕ)
    (st : GLState) : runGL (glCommands (loadCubemapFaces decode faces i)) st = st := by
  induction faces generalizing i st with
  | nil => rfl
  | cons f fs ih =>
    unfold loadCubemapFaces
    rw [glCommands_append, runGL_append, ih]
    cases decode f <;> rfl

theorem runGL_loadCubemap (decode : String → Option Image) (faces : List String)
    (st : GLState) : runGL (glCommands (loadCubemap decode faces)) st = st := by
  unfold loadCubemap
  rw [glCommands_append, glCommands_append, runGL_append, runGL_append, runGL_loadCubemapFaces]
  rfl

/-- The pipeline state at the first entry into the render loop: depth test,
blending and face culling all enabled, culling front faces with clockwise
winding, and the off-screen framebuffer still bound from its set-up. -/
theorem loopEntryGL_eq (cam : CameraOps) (m : Machine) :
    loopEntryGL cam m =
      { depthTest := true, blend := true, cullFaceEnabled := true, depthFunc := .LESS,
        blendSrc := .SRC_ALPHA, blendDst := .ONE_MINUS_SRC_ALPHA, cullFace := .FRONT,
        frontFace := .CW, framebuffer := .hdrFBO,
        program := some .blinnPhongTextureShader, vertexArray := .zero } := by
  unfold loopEntryGL startupEvents setupEvents
  simp only [glCommands_append, runGL_append, runGL_loadTexture, runGL_loadCubemap]
  cases m.framebufferComplete <;> rfl

/-- C10 fails on the code in the first iteration.  In the pipeline state `main`
brings to its render loop, the opaque box and then the window face are drawn
with blending enabled under `(SRC_ALPHA, ONE_MINUS_SRC_ALPHA)`, but with face
culling enabled (front faces, clockwise winding): `glEnable(GL_CULL_FACE)` of
line 189 is still in force, the first `glDisable(GL_CULL_FACE)` being line
745. -/
theorem first_frame_blended_draws_culled (cam : CameraOps) (m : Machine) (ps : ProgramState)
    (g : Globals) (t : ℚ) :
    blendedDraws (frameCommands m ps g t) (loopEntryGL cam m) =
      [(.opaqueBox, true, .SRC_ALPHA, .ONE_MINUS_SRC_ALPHA, true, .FRONT, .CW),
       (.windowFace, true, .SRC_ALPHA, .ONE_MINUS_SRC_ALPHA, true, .FRONT, .CW)] := by
  rw [loopEntryGL_eq]
  unfold frameCommands renderQuad
  split <;> rfl

/-- The pipeline state at the end of the commands of one iteration, whatever
the state at their start: depth function `LESS`, face culling disabled (with
the culled face and winding the culled pass selected), the window's framebuffer
bound, the post-process shader active and no vertex array bound.  The depth
test and the blending settings are the ones the iteration started with. -/
theorem runGL_frameCommands (m : Machine) (ps : ProgramState) (g : Globals) (t : ℚ)
    (st : GLState) :
    runGL (frameCommands m ps g t) st =
      { depthTest := st.depthTest, blend := st.blend, cullFaceEnabled := false,
        depthFunc := .LESS, blendSrc := st.blendSrc, blendDst := st.blendDst,
        cullFace := .FRONT, frontFace := .CW, framebuffer := .zero,
        program := some .screenShader, vertexArray := .zero } := by
  have h1 : ∀ s : GLState, runGL (floorPass ps g) s =
      { s with framebuffer := .hdrFBO, program := some .blinnPhongTextureShader,
               vertexArray := .metalTextureVerticesVAO } := fun _ => rfl
  have h2 : ∀ s : GLState, runGL (blendedPass m.wobble ps t) s =
      { s with program := some .blendingShader, vertexArray := .transparentVAO } := fun _ => rfl
  have h3 : ∀ s : GLState, runGL (culledPass m.wobble t) s =
      { s with cullFaceEnabled := false, cullFace := .FRONT, frontFace := .CW,
               vertexArray := .faceCullingBoxVAO } := fun _ => rfl
  have h4 : ∀ s : GLState, runGL (modelPass ps) s =
      { s with program := some .ourShader } := fun _ => rfl
  have h5 : ∀ s : GLState, runGL (skyboxPass ps) s =
      { s with depthFunc := .LESS, program := some .skyboxShader, vertexArray := .zero } :=
    fun _ => rfl
  have h6 : ∀ s : GLState, runGL (resolvePass ps) s =
      { s with framebuffer := .zero, program := some .screenShader } := fun _ => rfl
  have h7 : ∀ s : GLState, runGL (renderQuad m.quadName g).2 s =
      { s with vertexArray := .zero } := by
    intro s
    unfold renderQuad
    split <;> rfl
  unfold frameCommands
  simp only [runGL_append, h1, h2, h3, h4, h5, h6, h7]

/-- In an iteration that follows another one, the opaque box and then the window
face are drawn with face culling disabled, and with the blending settings the
earlier iteration started with. -/
theorem later_frame_blended_draws_unculled (m : Machine) (ps ps' : ProgramState)
    (g g' : Globals) (t t' : ℚ) (st : GLState) :
    blendedDraws (frameCommands m ps' g' t') (runGL (frameCommands m ps g t) st) =
      [(.opaqueBox, st.blend, st.blendSrc, st.blendDst, false, .FRONT, .CW),
       (.windowFace, st.blend, st.blendSrc, st.blendDst, false, .FRONT, .CW)] := by
  rw [runGL_frameCommands]
  unfold frameCommands renderQuad
  split <;> rfl

/-! ## Exit codes of `main` -/

theorem processInput_shouldClose (cam : CameraOps) (k : Keys) (w : World) :
    (processInput cam k w).window.shouldClose = (k.ESCAPE || w.window.shouldClose) := by
  simp only [processInput, pollExposure_window, pollBlinn_window, pollMove_window]
  unfold pollEscape
  cases k.ESCAPE <;> simp

theorem dispatch_shouldClose (cam : CameraOps) (e : InputEvent) (w : World)
    (h : w.window.shouldClose = true ∨ e = InputEvent.windowClose) :
    (dispatch cam e w).1.window.shouldClose = true := by
  cases e with
  | key k sc a mo =>
    rcases h with h | h
    · simp only [dispatch, key_callback]
      split_ifs <;> exact h
    · cases h
  | cursorPos x y =>
    rcases h with h | h
    · simp only [dispatch, mouse_callback]
      split_ifs <;> exact h
    · cases h
  | scroll x y =>
    rcases h with h | h
    · exact h
    · cases h
  | framebufferSize wd ht =>
    rcases h with h | h
    · exact h
    · cases h
  | windowClose => rfl

theorem pollEvents_shouldClose (cam : CameraOps) (es : List InputEvent) (w : World)
    (h : w.window.shouldClose = true ∨ InputEvent.windowClose ∈ es) :
    (pollEvents cam es w).1.window.shouldClose = true := by
  induction es generalizing w with
  | nil =>
    rcases h with h | h
    · exact h
    · cases h
  | cons e es ih =>
    show (pollEvents cam es (dispatch cam e w).1).1.window.shouldClose = true
    rcases h with h | h
    · exact ih _ (Or.inl (dispatch_shouldClose cam e w (Or.inl h)))
    · rcases List.mem_cons.mp h with h | h
      · exact ih _ (Or.inl (dispatch_shouldClose cam e w (Or.inr h.symm)))
      · exact ih _ (Or.inr h)

theorem frame_shouldClose (cam : CameraOps) (m : Machine) (inp : FrameInput) (w : World)
    (h : w.window.shouldClose = true ∨ inp.closes) :
    (frame cam m inp w).1.window.shouldClose = true := by
  unfold frame
  apply pollEvents_shouldClose
  rcases h with h | h | h
  · left
    simp [processInput_shouldClose, h]
  · left
    simp [processInput_shouldClose, h]
  · right
    exact h

theorem renderLoop_of_shouldClose (cam : CameraOps) (m : Machine) (inputs : List FrameInput)
    (w : World) (h : w.window.shouldClose = true) :
    (renderLoop cam m inputs w).2.2 = true := by
  cases inputs with
  | nil => exact h
  | cons inp rest => simp [renderLoop, h]

/-- The render loop is left on every input sequence one of whose frames asks the
window to close. -/
theorem renderLoop_terminates (cam : CameraOps) (m : Machine) (inputs : List FrameInput)
    (w : World) (h : ∃ inp ∈ inputs, inp.closes) :
    (renderLoop cam m inputs w).2.2 = true := by
  induction inputs generalizing w with
  | nil =>
    obtain ⟨inp, hin, _⟩ := h
    cases hin
  | cons inp rest ih =>
    cases hw : w.window.shouldClose with
    | true => exact renderLoop_of_shouldClose cam m _ w hw
    | false =>
      simp only [renderLoop, hw, Bool.false_eq_true, if_false]
      obtain ⟨i, hin, hc⟩ := h
      rcases List.mem_cons.mp hin with hi | hi
      · subst hi
        exact renderLoop_of_shouldClose cam m rest _ (frame_shouldClose cam m i w (Or.inr hc))
      · exact ih _ ⟨i, hi, hc⟩

theorem countSaves_append (xs ys : List Ev) :
    countSaves (xs ++ ys) = countSaves xs + countSaves ys := by
  simp [countSaves, List.countP_append]

theorem countSaves_gl (cmds : List GLCmd) : countSaves (cmds.map Ev.gl) = 0 := by
  induction cmds with
  | nil => rfl
  | cons c cs ih =>
    simp only [List.map_cons, countSaves] at ih ⊢
    rw [List.countP_cons_of_neg _ _ (by simp [Ev.isSave])]
    exact ih

theorem countSaves_loadTexture (path : String) (data : Option Image) :
    countSaves (loadTexture path data) = 0 := by
  cases data <;> rfl

theorem countSaves_loadCubemapFaces (decode : String → Option Image) (faces : List String)
    (i : ℕ) : countSaves (loadCubemapFaces decode faces i) = 0 := by
  induction faces generalizing i with
  | nil => rfl
  | cons f fs ih =>
    unfold loadCubemapFaces
    rw [countSaves_append, ih]
    cases decode f <;> rfl

theorem countSaves_loadCubemap (decode : String → Option Image) (faces : List String) :
    countSaves (loadCubemap decode faces) = 0 := by
  unfold loadCubemap
  rw [countSaves_append, countSaves_append, countSaves_loadCubemapFaces]
  rfl

theorem countSaves_startupEvents (cam : CameraOps) (m : Machine) :
    countSaves (startupEvents cam m) = 0 := by
  unfold startupEvents setupEvents
  simp only [countSaves_append, countSaves_loadTexture, countSaves_loadCubemap]
  cases m.framebufferComplete <;> rfl

theorem countSaves_pollEvents (cam : CameraOps) (es : List InputEvent) (w : World) :
    countSaves (pollEvents cam es w).2 = 0 := by
  induction es generalizing w with
  | nil => rfl
  | cons e es ih =>
    show countSaves ((dispatch cam e w).2 ++ (pollEvents cam es (dispatch cam e w).1).2) = 0
    rw [countSaves_append, ih]
    cases e <;> rfl

theorem countSaves_frame (cam : CameraOps) (m : Machine) (inp : FrameInput) (w : World) :
    countSaves (frame cam m inp w).2 = 0 := by
  unfold frame
  simp only [countSaves_append, countSaves_gl, countSaves_pollEvents]
  split <;> rfl

theorem countSaves_renderLoop (cam : CameraOps) (m : Machine) (inputs : List FrameInput)
    (w : World) : countSaves (renderLoop cam m inputs w).2.1 = 0 := by
  induction inputs generalizing w with
  | nil => rfl
  | cons inp rest ih =>
    unfold renderLoop
    split
    · rfl
    · simp only [countSaves_append, countSaves_frame, ih]

/-- C9. `main` returns `-1` exactly when window creation or the OpenGL loader
fails; in those runs no `ProgramState` is created, no frame is rendered, no
`SaveToFile` is called and the state file is left alone.  With both checks
passed (whatever framebuffer completeness and image decoding say) a run returns
`0` or is still in its render loop; it returns `0` exactly when the loop is
left, which happens on every input sequence with a frame that asks the window to
close; and then its events are the start-up, the frames, one `SaveToFile` call,
and the shutdown, in this order, with exactly one `SaveToFile` call overall and
nothing rendered after it. -/
theorem main_exit_codes (cam : CameraOps) (lib : NumText) (m : Machine) (writable : Bool)
    (inputs : List FrameInput) :
    ((main cam lib m writable inputs).exitCode = some (-1) ↔
      (m.windowCreated = false ∨ m.gladLoaded = false)) ∧
    ((m.windowCreated = false ∨ m.gladLoaded = false) →
      (main cam lib m writable inputs).world = none ∧
      Ev.newProgramState ∉ (main cam lib m writable inputs).events ∧
      (∀ e ∈ (main cam lib m writable inputs).events, e.isRender = false ∧ e.isSave = false) ∧
      (main cam lib m writable inputs).stateFile = m.stateFile) ∧
    (m.windowCreated = true → m.gladLoaded = true →
      ((main cam lib m writable inputs).exitCode = some 0 ∨
        (main cam lib m writable inputs).exitCode = none) ∧
      ((main cam lib m writable inputs).exitCode = some 0 ↔
        (renderLoop cam m inputs (loopEntryWorld cam m)).2.2 = true) ∧
      ((main cam lib m writable inputs).exitCode = some 0 →
        (main cam lib m writable inputs).events =
          startupEvents cam m ++ (renderLoop cam m inputs (loopEntryWorld cam m)).2.1 ++
            [Ev.saveToFile "resources/program_state.txt"
              (renderLoop cam m inputs (loopEntryWorld cam m)).1.programState.SaveToFile.2] ++
            shutdownEvents ∧
        countSaves (main cam lib m writable inputs).events = 1 ∧
        (∀ e ∈ shutdownEvents, e.isRender = false)) ∧
      ((∃ inp ∈ inputs, inp.closes) → (main cam lib m writable inputs).exitCode = some 0)) := by
  cases hw : m.windowCreated with
  | false =>
    have hmain : main cam lib m writable inputs =
        { exitCode := some (-1),
          events := windowEvents ++ [.out "Failed to create GLFW window", .lib "glfwTerminate"],
          world := none, stateFile := m.stateFile } := by
      simp [main, hw]
    rw [hmain]
    have h1 : Ev.newProgramState ∉
        windowEvents ++ [Ev.out "Failed to create GLFW window", Ev.lib "glfwTerminate"] := by
      decide
    have h2 : ∀ e ∈ windowEvents ++ [Ev.out "Failed to create GLFW window", Ev.lib "glfwTerminate"],
        e.isRender = false ∧ e.isSave = false := by decide
    refine ⟨by simp, fun _ => ⟨rfl, h1, h2, rfl⟩, fun h => by cases h⟩
  | true =>
    cases hg : m.gladLoaded with
    | false =>
      have hmain : main cam lib m writable inputs =
          { exitCode := some (-1),
            events := windowEvents ++ contextEvents ++ [.out "Failed to initialize GLAD"],
            world := none, stateFile := m.stateFile } := by
        simp [main, hw, hg]
      rw [hmain]
      have h1 : Ev.newProgramState ∉
          windowEvents ++ contextEvents ++ [Ev.out "Failed to initialize GLAD"] := by decide
      have h2 : ∀ e ∈ windowEvents ++ contextEvents ++ [Ev.out "Failed to initialize GLAD"],
          e.isRender = false ∧ e.isSave = false := by decide
      refine ⟨by simp, fun _ => ⟨rfl, h1, h2, rfl⟩, fun _ h => by cases h⟩
    | true =>
      cases hl : (renderLoop cam m inputs (loopEntryWorld cam m)).2.2 with
      | true =>
        have hmain : main cam lib m writable inputs =
            { exitCode := some 0,
              events := startupEvents cam m ++
                (renderLoop cam m inputs (loopEntryWorld cam m)).2.1 ++
                [.saveToFile "resources/program_state.txt"
                  (renderLoop cam m inputs (loopEntryWorld cam m)).1.programState.SaveToFile.2] ++
                shutdownEvents,
              world := some (renderLoop cam m inputs (loopEntryWorld cam m)).1,
              stateFile := if writable then
                  savedFile lib (renderLoop cam m inputs (loopEntryWorld cam m)).1.programState
                else m.stateFile } := by
          simp [main, hw, hg, hl]
        rw [hmain]
        refine ⟨by simp, fun h => by simp at h, fun _ _ => ⟨Or.inl rfl, by simp, fun _ => ?_,
          fun _ => rfl⟩⟩
        refine ⟨rfl, ?_, by decide⟩
        simp only [countSaves_append, countSaves_startupEvents, countSaves_renderLoop]
        rfl
      | false =>
        have hmain : main cam lib m writable inputs =
            { exitCode := none,
              events := startupEvents cam m ++
                (renderLoop cam m inputs (loopEntryWorld cam m)).2.1,
              world := some (renderLoop cam m inputs (loopEntryWorld cam m)).1,
              stateFile := m.stateFile } := by
          simp [main, hw, hg, hl]
        rw [hmain]
        refine ⟨by simp, fun h => by simp at h, fun _ _ => ⟨Or.inr rfl, by simp,
          fun h => by simp at h, fun h => ?_⟩⟩
        have := renderLoop_terminates cam m inputs (loopEntryWorld cam m) h
        rw [hl] at this
        cases this

/-- Witness for C9: on the machine on which everything works, one idle frame
followed by a frame with ESC down makes `main` return `0`. -/
theorem main_exit_codes_witness :
    (main stillCamera plainText goodMachine true [idleFrame 0, escapeFrame 1]).exitCode
      = some 0 :=
  ((main_exit_codes stillCamera plainText goodMachine true [idleFrame 0, escapeFrame 1]).2.2
    rfl rfl).2.2.2 ⟨escapeFrame 1, by simp, Or.inl rfl⟩

/-! ## The face-culled pass -/

/-- C11 fails on the code as stated: in a frame of a fresh start the culled box
is drawn once, with face culling enabled and clockwise front faces, but the
culled face is `FRONT` (line 736, `glCullFace(GL_FRONT)`), not `BACK`. -/
theorem culled_box_culls_front_not_back :
    culledBoxDraws (frameCommands goodMachine startWorld.programState Globals.initial 0)
        GLState.fresh = [(true, Face.FRONT, Winding.CW)] ∧
    ¬ (∀ p ∈ draws (frameCommands goodMachine startWorld.programState Globals.initial 0)
        GLState.fresh, p.1 = DrawKind.culledBox → p.2.cullFace = Face.BACK) := by
  have h : culledBoxDraws (frameCommands goodMachine startWorld.programState Globals.initial 0)
      GLState.fresh = [(true, Face.FRONT, Winding.CW)] := by
    unfold frameCommands renderQuad
    split <;> rfl
  refine ⟨h, fun hall => ?_⟩
  have hmem : ∀ q ∈ culledBoxDraws
      (frameCommands goodMachine startWorld.programState Globals.initial 0) GLState.fresh,
      q.2.1 = Face.BACK := by
    intro q hq
    unfold culledBoxDraws at hq
    obtain ⟨p, hp, rfl⟩ := List.mem_map.mp hq
    obtain ⟨hp1, hp2⟩ := List.mem_filter.mp hp
    exact hall p hp1 (by simpa using hp2)
  rw [h] at hmem
  have := hmem (true, Face.FRONT, Winding.CW) (List.mem_singleton.mpr rfl)
  cases this

/-- C11 as amended.  In every frame, whatever the state it starts in, the
36-vertex draw of the culled box is issued once, with face culling enabled, the
culled face set to front faces and the front-face winding set to clockwise; the
command that follows the draw is `glDisable(GL_CULL_FACE)`, so culling is off
again before the next draw call. -/
theorem culled_box_draw_settings (m : Machine) (ps : ProgramState) (g : Globals) (t : ℚ)
    (st0 : GLState) :
    culledBoxDraws (frameCommands m ps g t) st0 = [(true, Face.FRONT, Winding.CW)] ∧
    ∃ pre post : List GLCmd,
      frameCommands m ps g t =
        pre ++ GLCmd.drawArrays .TRIANGLES 0 36 :: GLCmd.disable .CULL_FACE :: post ∧
      drawKind (GLCmd.drawArrays .TRIANGLES 0 36) (runGL pre st0) = some DrawKind.culledBox ∧
      cullSettings (runGL pre st0) = (true, Face.FRONT, Winding.CW) ∧
      (runGL (pre ++ [GLCmd.drawArrays .TRIANGLES 0 36, GLCmd.disable .CULL_FACE])
        st0).cullFaceEnabled = false := by
  constructor
  · unfold frameCommands renderQuad
    split <;> rfl
  · refine ⟨floorPass ps g ++ blendedPass m.wobble ps t ++ (culledPass m.wobble t).take 7,
      (culledPass m.wobble t).drop 9 ++ modelPass ps ++ skyboxPass ps ++ resolvePass ps ++
        (renderQuad m.quadName g).2, ?_, ?_, ?_, ?_⟩
    · simp only [frameCommands, floorPass, blendedPass, culledPass, List.take, List.drop,
        List.append_assoc, List.cons_append, List.nil_append]
    · rfl
    · rfl
    · rfl

/-! ## Active program at the draws -/

/-- C13 fails on the code in every frame.  Whatever state the frame starts in:
the small rocket, the culled box and the small astronaut are all drawn while
`blendingShader` is the active program (`ourShader.use()` is next called on line
764, and `faceCullingShader.use()` is never called inside the loop); and three
uniform writes go to a shader that is not the active program: `"model"` on
`ourShader` (line 722), on `faceCullingShader` (line 743) and on `ourShader`
again (line 761), all while `blendingShader` is active. -/
theorem mini_models_drawn_under_blendingShader (m : Machine) (ps : ProgramState) (g : Globals)
    (t : ℚ) (st0 : GLState) :
    drawPrograms (frameCommands m ps g t) st0 =
      [(.floor, some .blinnPhongTextureShader),
       (.opaqueBox, some .blendingShader),
       (.model .modelRocket, some .blendingShader),
       (.windowFace, some .blendingShader),
       (.culledBox, some .blendingShader),
       (.model .modelAstronaut, some .blendingShader),
       (.model .modelSun, some .ourShader),
       (.model .modelEarth, some .ourShader),
       (.model .modelRocket, some .ourShader),
       (.model .modelMars, some .ourShader),
       (.model .modelAstronaut, some .ourShader),
       (.model .modelAstronaut, some .ourShader),
       (.skybox, some .skyboxShader),
       (.resolveQuad, some .screenShader)] ∧
    strayUniforms (frameCommands m ps g t) st0 =
      [(.ourShader, "model", some .blendingShader),
       (.faceCullingShader, "model", some .blendingShader),
       (.ourShader, "model", some .blendingShader)] := by
  constructor
  · unfold frameCommands renderQuad
    split <;> rfl
  · unfold frameCommands renderQuad
    split <;> rfl

/-! ## The skybox view matrix -/

theorem skyboxView_block (V : Matrix4) (i j : Fin 3) :
    skyboxView V (blockIndex i) (blockIndex j) = V (blockIndex i) (blockIndex j) := by
  have h : (blockIndex i).val < 3 ∧ (blockIndex j).val < 3 := ⟨i.isLt, j.isLt⟩
  simp only [skyboxView, mat4, mat3, h, and_self, dite_true]
  rfl

theorem skyboxView_outside (V : Matrix4) (i j : Fin 4) (h : ¬ (i.val < 3 ∧ j.val < 3)) :
    skyboxView V i j = if i = j then 1 else 0 := by
  simp only [skyboxView, mat4, h, dite_false]

/-- C12. For every 4x4 view matrix `V`, the matrix the skybox pass sends as its
`"view"` uniform, `mat4(mat3(V))`, has the upper-left 3x3 block of `V`, zeros in
the first three entries of the fourth column, and `(0, 0, 0, 1)` as fourth row;
it is the same for two matrices with the same upper-left block, so it does not
depend on the translation part; and applying the operation twice gives the same
as applying it once. -/
theorem skyboxView_strips_translation (V : Matrix4) (ps : ProgramState) :
    skyboxViewWrite ps ∈ skyboxPass ps ∧
    (∀ i j : Fin 3, skyboxView V (blockIndex i) (blockIndex j) = V (blockIndex i) (blockIndex j)) ∧
    (∀ i : Fin 3, skyboxView V (blockIndex i) 3 = 0) ∧
    (skyboxView V 3 0 = 0 ∧ skyboxView V 3 1 = 0 ∧ skyboxView V 3 2 = 0 ∧ skyboxView V 3 3 = 1) ∧
    (∀ V' : Matrix4,
      (∀ i j : Fin 3, V' (blockIndex i) (blockIndex j) = V (blockIndex i) (blockIndex j)) →
      skyboxView V' = skyboxView V) ∧
    skyboxView (skyboxView V) = skyboxView V := by
  refine ⟨?_, skyboxView_block V, ?_, ?_, ?_, ?_⟩
  · simp [skyboxViewWrite, skyboxPass]
  · intro i
    rw [skyboxView_outside V _ _ (fun h => absurd h.2 (by decide))]
    have : blockIndex i ≠ 3 := by
      intro h
      have h1 := congrArg Fin.val h
      have h2 := i.isLt
      simp only [blockIndex] at h1
      change i.val = 3 at h1
      omega
    simp [this]
  · refine ⟨?_, ?_, ?_, ?_⟩ <;>
      rw [skyboxView_outside V _ _ (fun h => absurd h.1 (by decide))] <;> decide
  · intro V' h
    funext i j
    by_cases hb : i.val < 3 ∧ j.val < 3
    · exact (skyboxView_block V' ⟨i.val, hb.1⟩ ⟨j.val, hb.2⟩).trans
        ((h _ _).trans (skyboxView_block V ⟨i.val, hb.1⟩ ⟨j.val, hb.2⟩).symm)
    · rw [skyboxView_outside V' i j hb, skyboxView_outside V i j hb]
  · funext i j
    by_cases hb : i.val < 3 ∧ j.val < 3
    · exact (skyboxView_block (skyboxView V) ⟨i.val, hb.1⟩ ⟨j.val, hb.2⟩)
    · rw [skyboxView_outside _ i j hb, skyboxView_outside V i j hb]

/-- Witness for C12: a rigid motion with translation `(5, 6, 7)` and the pure
rotation part of it have the same skybox view matrix. -/
theorem skyboxView_strips_translation_witness :
    skyboxView (fun i j => if j = 3 then (if i = 0 then 5 else if i = 1 then 6
        else if i = 2 then 7 else 1) else if i = j then 1 else 0)
      = skyboxView (fun i j => if i = j then 1 else 0) :=
  (skyboxView_strips_translation (fun i j => if i = j then 1 else 0)
      startWorld.programState).2.2.2.2.1
    (fun i j => if j = 3 then (if i = 0 then 5 else if i = 1 then 6
        else if i = 2 then 7 else 1) else if i = j then 1 else 0)
    (by
      intro i j
      have h3 : blockIndex j ≠ 3 := by
        intro h
        have h1 := congrArg Fin.val h
        have h2 := j.isLt
        simp only [blockIndex] at h1
        change j.val = 3 at h1
        omega
      simp [h3])

/-! ## The texture loaders -/

theorem uploads_append (xs ys : List Ev) : uploads (xs ++ ys) = uploads xs ++ uploads ys := by
  induction xs with
  | nil => rfl
  | cons e es ih =>
    cases e with
    | gl c => cases c <;> simp [uploads, ih]
    | _ => simp [uploads, ih]

theorem logged_append (xs ys : List Ev) : logged (xs ++ ys) = logged xs ++ logged ys := by
  induction xs with
  | nil => rfl
  | cons e es ih => cases e <;> simp [logged, ih]

theorem libCalls_append (xs ys : List Ev) : libCalls (xs ++ ys) = libCalls xs ++ libCalls ys := by
  induction xs with
  | nil => rfl
  | cons e es ih => cases e <;> simp [libCalls, ih]

theorem uploads_loadCubemapFaces (decode : String → Option Image) (faces : List String) (i : ℕ) :
    uploads (loadCubemapFaces decode faces i) = expectedUploads decode faces i := by
  induction faces generalizing i with
  | nil => rfl
  | cons f fs ih =>
    unfold loadCubemapFaces expectedUploads
    rw [uploads_append, ih]
    cases decode f <;> rfl

theorem logged_loadCubemapFaces (decode : String → Option Image) (faces : List String) (i : ℕ) :
    logged (loadCubemapFaces decode faces i) = expectedLog decode faces := by
  induction faces generalizing i with
  | nil => rfl
  | cons f fs ih =>
    unfold loadCubemapFaces
    rw [logged_append, ih]
    cases h : decode f <;> simp [expectedLog, logged, List.filter, h]

theorem libCalls_loadCubemapFaces (decode : String → Option Image) (faces : List String) (i : ℕ) :
    (libCalls (loadCubemapFaces decode faces i)).count "stbi_load" = faces.length := by
  induction faces generalizing i with
  | nil => rfl
  | cons f fs ih =>
    unfold loadCubemapFaces
    rw [libCalls_append, List.count_append, ih]
    cases decode f <;> simp [libCalls, List.count_cons] <;> omega

/-- C14. Both loaders are total and hand back the name `glGenTextures` gave
them, whatever the decoder returns.  `loadTexture` uploads one image exactly
when the image decoded and otherwise writes one console line instead.
`loadCubemap` calls the decoder once per face of the list; its uploads are, in
order, `POSITIVE_X + i` for each face `i` that decoded, and its console lines
are one per face that did not, so a failed face does not keep later faces from
being loaded. -/
theorem loaders_always_return (generated : ℕ) (path : String) (data : Option Image)
    (decode : String → Option Image) (faces : List String) :
    (loadTextureCall generated path data).1 = generated ∧
    (loadTextureCall generated path data).2.head? = some (Ev.gl (.genTextures .textureID)) ∧
    uploads (loadTextureCall generated path data).2
      = (if data.isSome then [ImageTarget.TEXTURE_2D] else []) ∧
    logged (loadTextureCall generated path data).2
      = (if data.isSome then [] else ["Texture failed to load at path: " ++ path]) ∧
    (loadCubemapCall generated decode faces).1 = generated ∧
    (loadCubemapCall generated decode faces).2.head? = some (Ev.gl (.genTextures .textureID)) ∧
    (libCalls (loadCubemapCall generated decode faces).2).count "stbi_load" = faces.length ∧
    uploads (loadCubemapCall generated decode faces).2 = expectedUploads decode faces 0 ∧
    logged (loadCubemapCall generated decode faces).2 = expectedLog decode faces := by
  refine ⟨rfl, rfl, ?_, ?_, rfl, rfl, ?_, ?_, ?_⟩
  · cases data <;> rfl
  · cases data <;> rfl
  · show (libCalls (loadCubemap decode faces)).count "stbi_load" = faces.length
    unfold loadCubemap
    rw [libCalls_append, libCalls_append, List.count_append, List.count_append,
      libCalls_loadCubemapFaces]
    simp [libCalls]
  · show uploads (loadCubemap decode faces) = expectedUploads decode faces 0
    unfold loadCubemap
    rw [uploads_append, uploads_append, uploads_loadCubemapFaces]
    simp [uploads]
  · show logged (loadCubemap decode faces) = expectedLog decode faces
    unfold loadCubemap
    rw [logged_append, logged_append, logged_loadCubemapFaces]
    simp [logged]

/-- The skybox with its second and third face failing to decode: the other four
faces are uploaded to their own targets and two lines are logged. -/
theorem loadCubemap_patchy :
    uploads (loadCubemapCall 5 patchyDecode skyboxFaces).2 =
      [.CUBE_MAP_POSITIVE_X_plus 0, .CUBE_MAP_POSITIVE_X_plus 3,
       .CUBE_MAP_POSITIVE_X_plus 4, .CUBE_MAP_POSITIVE_X_plus 5] ∧
    logged (loadCubemapCall 5 patchyDecode skyboxFaces).2 =
      ["Cubemap texture failed to load at path: resources/textures/skybox/_back.png",
       "Cubemap texture failed to load at path: resources/textures/skybox/_bottom.png"] := by
  constructor <;> decide

/-! ## The settings overlay within a frame -/

theorem processInput_ImGuiEnabled (cam : CameraOps) (k : Keys) (w : World) :
    (processInput cam k w).programState.ImGuiEnabled = w.programState.ImGuiEnabled := by
  simp only [processInput, pollExposure_programState, pollBlinn_programState]
  unfold pollMove pollEscape
  cases k.W <;> cases k.S <;> cases k.A <;> cases k.D <;> cases k.ESCAPE <;> rfl

theorem frameCommands_not_overlay (m : Machine) (ps : ProgramState) (g : Globals) (t : ℚ) :
    ∀ c ∈ frameCommands m ps g t, c.isOverlay = false := by
  have h : (frameCommands m ps g t).all (fun c => !c.isOverlay) = true := by
    unfold frameCommands renderQuad
    split <;> rfl
  intro c hc
  have := List.all_eq_true.mp h c hc
  simpa using this

theorem pollEvents_not_overlay (cam : CameraOps) (es : List InputEvent) (w : World) :
    ∀ e ∈ (pollEvents cam es w).2, e.isOverlay = false := by
  induction es generalizing w with
  | nil => intro e he; cases he
  | cons ev es ih =>
    intro e he
    change e ∈ (dispatch cam ev w).2 ++ (pollEvents cam es (dispatch cam ev w).1).2 at he
    rcases List.mem_append.mp he with h | h
    · cases ev with
      | framebufferSize wd ht =>
        simp only [dispatch, framebuffer_size_callback, List.map_cons, List.map_nil,
          List.mem_singleton] at h
        subst h
        rfl
      | key k sc a mo => cases h
      | cursorPos x y => cases h
      | scroll x y => cases h
      | windowClose => cases h
    · exact ih _ e h

theorem DrawImGui_all_overlay (ui : UiInput) (ps : ProgramState) :
    ∀ e ∈ (DrawImGui ui ps).2, e.isOverlay = true := by
  have h : (DrawImGui ui ps).2.all Ev.isOverlay = true := rfl
  exact fun e he => List.all_eq_true.mp h e he

/-- The events of a frame, in order: the clock read and the commands of lines
650-913, the events of `DrawImGui` when the UI flag is set, the buffer swap, the
event poll, and what the callbacks issue. -/
theorem frame_events (cam : CameraOps) (m : Machine) (inp : FrameInput) (w : World) :
    (frame cam m inp w).2 =
      (Ev.lib "glfwGetTime" ::
        (frameCommands m (afterInput cam inp w).programState (afterInput cam inp w).globals
          (f32 inp.time)).map Ev.gl) ++
      (if w.programState.ImGuiEnabled then
        (DrawImGui inp.ui (afterInput cam inp w).programState).2 else []) ++
      Ev.lib "glfwSwapBuffers" :: Ev.lib "glfwPollEvents" ::
        (pollEvents cam inp.events
          { afterInput cam inp w with
            programState :=
              if w.programState.ImGuiEnabled then
                (DrawImGui inp.ui (afterInput cam inp w).programState).1
              else (afterInput cam inp w).programState,
            globals := (renderQuad m.quadName (afterInput cam inp w).globals).1 }).2 := by
  have hen : (afterInput cam inp w).programState.ImGuiEnabled = w.programState.ImGuiEnabled :=
    processInput_ImGuiEnabled cam inp.keys _
  have hf : (frame cam m inp w).2 =
      (Ev.lib "glfwGetTime" ::
        (frameCommands m (afterInput cam inp w).programState (afterInput cam inp w).globals
          (f32 inp.time)).map Ev.gl) ++
      (if (afterInput cam inp w).programState.ImGuiEnabled then
        DrawImGui inp.ui (afterInput cam inp w).programState
        else ((afterInput cam inp w).programState, [])).2 ++
      Ev.lib "glfwSwapBuffers" :: Ev.lib "glfwPollEvents" ::
        (pollEvents cam inp.events
          { afterInput cam inp w with
            programState :=
              (if (afterInput cam inp w).programState.ImGuiEnabled then
                DrawImGui inp.ui (afterInput cam inp w).programState
              else ((afterInput cam inp w).programState, [])).1,
            globals := (renderQuad m.quadName (afterInput cam inp w).globals).1 }).2 := by
    simp only [frame, afterInput, List.append_assoc, List.cons_append, List.nil_append,
      List.singleton_append]
  rw [hf, hen]
  cases w.programState.ImGuiEnabled <;> rfl

theorem frame_world (cam : CameraOps) (m : Machine) (inp : FrameInput) (w : World) :
    (frame cam m inp w).1 =
      (pollEvents cam inp.events
        { afterInput cam inp w with
          programState :=
            if w.programState.ImGuiEnabled then
              (DrawImGui inp.ui (afterInput cam inp w).programState).1
            else (afterInput cam inp w).programState,
          globals := (renderQuad m.quadName (afterInput cam inp w).globals).1 }).1 := by
  have hen : (afterInput cam inp w).programState.ImGuiEnabled = w.programState.ImGuiEnabled :=
    processInput_ImGuiEnabled cam inp.keys _
  have hf : (frame cam m inp w).1 =
      (pollEvents cam inp.events
        { afterInput cam inp w with
          programState :=
            (if (afterInput cam inp w).programState.ImGuiEnabled then
              DrawImGui inp.ui (afterInput cam inp w).programState
            else ((afterInput cam inp w).programState, [])).1,
          globals := (renderQuad m.quadName (afterInput cam inp w).globals).1 }).1 := by
    simp only [frame, afterInput]
  rw [hf, hen]
  cases w.programState.ImGuiEnabled <;> rfl

/-- C16. In every frame the UI flag `ImGuiEnabled` still has, behind
`processInput`, the value the frame started with.  The events of the frame are:
a first part that ends with the commands of `renderQuad` (among them the quad
draw) and contains no call of the overlay; then the calls of `DrawImGui` if the
flag is set and nothing if it is not; then the buffer swap and the event poll;
then what the callbacks issue, again without any call of the overlay.  So the
overlay is called exactly when the flag is set, behind the resolve quad and in
front of swap and poll; and with the flag clear the `ProgramState` that reaches
the event poll is the one `processInput` left behind. -/
theorem overlay_iff_enabled (cam : CameraOps) (m : Machine) (inp : FrameInput) (w : World) :
    (afterInput cam inp w).programState.ImGuiEnabled = w.programState.ImGuiEnabled ∧
    (∃ pre post : List Ev,
      (frame cam m inp w).2 =
        (pre ++ (renderQuad m.quadName (afterInput cam inp w).globals).2.map Ev.gl) ++
        (if w.programState.ImGuiEnabled then
          (DrawImGui inp.ui (afterInput cam inp w).programState).2 else []) ++
        Ev.lib "glfwSwapBuffers" :: Ev.lib "glfwPollEvents" :: post ∧
      (∀ e ∈ pre ++ (renderQuad m.quadName (afterInput cam inp w).globals).2.map Ev.gl,
        e.isOverlay = false) ∧
      (∀ e ∈ post, e.isOverlay = false) ∧
      Ev.gl (.drawArrays .TRIANGLE_STRIP 0 4) ∈
        (renderQuad m.quadName (afterInput cam inp w).globals).2.map Ev.gl) ∧
    (∀ e ∈ (DrawImGui inp.ui (afterInput cam inp w).programState).2, e.isOverlay = true) ∧
    ((∃ e ∈ (frame cam m inp w).2, e.isOverlay = true) ↔ w.programState.ImGuiEnabled = true) ∧
    (w.programState.ImGuiEnabled = false →
      (beforePoll cam m inp w).programState = (afterInput cam inp w).programState ∧
      (frame cam m inp w).1 = (pollEvents cam inp.events (beforePoll cam m inp w)).1) := by
  have hpre : ∀ e ∈ Ev.lib "glfwGetTime" ::
      (frameCommands m (afterInput cam inp w).programState (afterInput cam inp w).globals
        (f32 inp.time)).map Ev.gl, e.isOverlay = false := by
    intro e he
    rcases List.mem_cons.mp he with h | h
    · subst h; rfl
    · obtain ⟨c, hc, rfl⟩ := List.mem_map.mp h
      exact frameCommands_not_overlay _ _ _ _ c hc
  have hquad : Ev.gl (.drawArrays .TRIANGLE_STRIP 0 4) ∈
      (renderQuad m.quadName (afterInput cam inp w).globals).2.map Ev.gl := by
    unfold renderQuad
    split <;> simp
  have hsplit : Ev.lib "glfwGetTime" ::
      (frameCommands m (afterInput cam inp w).programState (afterInput cam inp w).globals
        (f32 inp.time)).map Ev.gl =
      (Ev.lib "glfwGetTime" ::
        (floorPass (afterInput cam inp w).programState (afterInput cam inp w).globals ++
          blendedPass m.wobble (afterInput cam inp w).programState (f32 inp.time) ++
          culledPass m.wobble (f32 inp.time) ++ modelPass (afterInput cam inp w).programState ++
          skyboxPass (afterInput cam inp w).programState ++
          resolvePass (afterInput cam inp w).programState).map Ev.gl) ++
      (renderQuad m.quadName (afterInput cam inp w).globals).2.map Ev.gl := by
    rw [frameCommands, List.map_append, List.cons_append]
  refine ⟨processInput_ImGuiEnabled cam inp.keys _,
    ⟨Ev.lib "glfwGetTime" ::
        (floorPass (afterInput cam inp w).programState (afterInput cam inp w).globals ++
          blendedPass m.wobble (afterInput cam inp w).programState (f32 inp.time) ++
          culledPass m.wobble (f32 inp.time) ++ modelPass (afterInput cam inp w).programState ++
          skyboxPass (afterInput cam inp w).programState ++
          resolvePass (afterInput cam inp w).programState).map Ev.gl,
      (pollEvents cam inp.events
          { afterInput cam inp w with
            programState :=
              if w.programState.ImGuiEnabled then
                (DrawImGui inp.ui (afterInput cam inp w).programState).1
              else (afterInput cam inp w).programState,
            globals := (renderQuad m.quadName (afterInput cam inp w).globals).1 }).2,
      ?_, ?_, ?_, hquad⟩,
    DrawImGui_all_overlay _ _, ?_, ?_⟩
  · rw [frame_events, hsplit]
  · rw [← hsplit]; exact hpre
  · exact pollEvents_not_overlay cam inp.events _
  · rw [frame_events]
    constructor
    · rintro ⟨e, he, hov⟩
      rcases List.mem_append.mp he with h | h
      · rcases List.mem_append.mp h with h | h
        · rw [hpre e h] at hov; cases hov
        · cases hen : w.programState.ImGuiEnabled
          · rw [hen] at h; cases h
          · rfl
      · rcases List.mem_cons.mp h with h | h
        · subst h; cases hov
        · rcases List.mem_cons.mp h with h | h
          · subst h; cases hov
          · rw [pollEvents_not_overlay cam inp.events _ e h] at hov; cases hov
    · intro hen
      refine ⟨Ev.lib "ImGui_ImplOpenGL3_NewFrame", ?_, rfl⟩
      rw [hen]
      simp [DrawImGui]
  · intro hen
    refine ⟨rfl, ?_⟩
    rw [frame_world, hen]
    rfl

/-- Witness for C16: an idle frame on the world of a fresh start, whose UI flag
is clear, reaches the event poll with the `ProgramState` that `processInput`
left behind. -/
theorem overlay_iff_enabled_witness :
    (beforePoll stillCamera goodMachine (resizeFrame 1) startWorld).programState
        = (afterInput stillCamera (resizeFrame 1) startWorld).programState ∧
    (frame stillCamera goodMachine (resizeFrame 1) startWorld).1 =
      (pollEvents stillCamera (resizeFrame 1).events
        (beforePoll stillCamera goodMachine (resizeFrame 1) startWorld)).1 :=
  (overlay_iff_enabled stillCamera goodMachine (resizeFrame 1) startWorld).2.2.2.2 rfl

/-! ## Pitch under mouse look -/

theorem ProcessMouseMovementSpec_pitch (frontOf : ℚ → ℚ → Vec3) (dx dy : ℚ) (c : Camera) :
    -89 ≤ (ProcessMouseMovementSpec frontOf dx dy c).Pitch ∧
      (ProcessMouseMovementSpec frontOf dx dy c).Pitch ≤ 89 := by
  simp only [ProcessMouseMovementSpec]
  split_ifs <;> constructor <;> linarith

theorem mouse_callback_pitch (base : CameraOps) (frontOf : ℚ → ℚ → Vec3) (xpos ypos : ℚ)
    (w : World)
    (h : -89 ≤ w.programState.camera.Pitch ∧ w.programState.camera.Pitch ≤ 89) :
    -89 ≤ (mouse_callback (withSpecMouse base frontOf) xpos ypos w).programState.camera.Pitch ∧
      (mouse_callback (withSpecMouse base frontOf) xpos ypos w).programState.camera.Pitch
        ≤ 89 := by
  unfold mouse_callback
  cases hen : w.programState.CameraMouseMovementUpdateEnabled
  · simpa using h
  · simp only [if_true]
    exact ProcessMouseMovementSpec_pitch frontOf _ _ _

theorem mouseAll_pitch (base : CameraOps) (frontOf : ℚ → ℚ → Vec3) (evs : List (ℚ × ℚ))
    (w : World)
    (h : -89 ≤ w.programState.camera.Pitch ∧ w.programState.camera.Pitch ≤ 89) :
    -89 ≤ (mouseAll (withSpecMouse base frontOf) evs w).programState.camera.Pitch ∧
      (mouseAll (withSpecMouse base frontOf) evs w).programState.camera.Pitch ≤ 89 := by
  induction evs generalizing w with
  | nil => exact h
  | cons e es ih => exact ih _ (mouse_callback_pitch base frontOf e.1 e.2 w h)

/-- C15. With `Camera::ProcessMouseMovement` as the spec describes it, for every
starting world whose camera pitch lies in `[-89, 89]` and every finite sequence
of cursor events handled by `mouse_callback`, the camera pitch lies in
`[-89, 89]` after each event of the sequence. -/
theorem pitch_stays_clamped (base : CameraOps) (frontOf : ℚ → ℚ → Vec3) (w : World)
    (evs : List (ℚ × ℚ)) (n : ℕ)
    (hlo : -89 ≤ w.programState.camera.Pitch) (hhi : w.programState.camera.Pitch ≤ 89) :
    -89 ≤ (mouseAll (withSpecMouse base frontOf) (evs.take n) w).programState.camera.Pitch ∧
      (mouseAll (withSpecMouse base frontOf) (evs.take n) w).programState.camera.Pitch ≤ 89 :=
  mouseAll_pitch base frontOf (evs.take n) w ⟨hlo, hhi⟩

/-- Witness for C15: from the world of a fresh start (pitch 0), two cursor events
that ask for a pitch far beyond the limit. -/
theorem pitch_stays_clamped_witness :
    -89 ≤ (mouseAll (withSpecMouse stillCamera (fun _ _ => ⟨0, 0, -1⟩))
        ([((0 : ℚ), (0 : ℚ)), (0, -1000), (0, 5000)].take 2)
        startWorld).programState.camera.Pitch ∧
      (mouseAll (withSpecMouse stillCamera (fun _ _ => ⟨0, 0, -1⟩))
        ([((0 : ℚ), (0 : ℚ)), (0, -1000), (0, 5000)].take 2)
        startWorld).programState.camera.Pitch ≤ 89 :=
  pitch_stays_clamped stillCamera (fun _ _ => ⟨0, 0, -1⟩) startWorld
    [(0, 0), (0, -1000), (0, 5000)] 2
    (by simp [startWorld, ProgramState.new, stillCamera])
    (by simp [startWorld, ProgramState.new, stillCamera])

/-! ## The exposure keys and the post-process uniforms -/

theorem pollMove_camera_only (cam : CameraOps) (b : Bool) (d : CameraMovement) (w : World) :
    ∃ c : Camera, (pollMove cam b d w).programState = { w.programState with camera := c } := by
  unfold pollMove
  cases b
  · exact ⟨w.programState.camera, rfl⟩
  · exact ⟨_, rfl⟩

/-- A call of `processInput` changes nothing of the `ProgramState` but its
camera. -/
theorem processInput_camera_only (cam : CameraOps) (k : Keys) (w : World) :
    ∃ c : Camera, (processInput cam k w).programState = { w.programState with camera := c } := by
  simp only [processInput, pollExposure_programState, pollBlinn_programState]
  obtain ⟨c1, h1⟩ := pollMove_camera_only cam k.W .FORWARD (pollEscape k w)
  obtain ⟨c2, h2⟩ := pollMove_camera_only cam k.S .BACKWARD
    (pollMove cam k.W .FORWARD (pollEscape k w))
  obtain ⟨c3, h3⟩ := pollMove_camera_only cam k.A .LEFT
    (pollMove cam k.S .BACKWARD (pollMove cam k.W .FORWARD (pollEscape k w)))
  obtain ⟨c4, h4⟩ := pollMove_camera_only cam k.D .RIGHT
    (pollMove cam k.A .LEFT
      (pollMove cam k.S .BACKWARD (pollMove cam k.W .FORWARD (pollEscape k w))))
  refine ⟨c4, ?_⟩
  rw [h4, h3, h2, h1, pollEscape_programState]

theorem pollAll_camera_only (cam : CameraOps) (ks : List Keys) (w : World) :
    ∃ c : Camera, (pollAll cam ks w).programState = { w.programState with camera := c } := by
  induction ks generalizing w with
  | nil => exact ⟨w.programState.camera, rfl⟩
  | cons k ks ih =>
    obtain ⟨c1, h1⟩ := processInput_camera_only cam k w
    obtain ⟨c2, h2⟩ := ih (processInput cam k w)
    refine ⟨c2, ?_⟩
    rw [pollAll_cons, h2, h1]

/-- C17. Q and E work on the file-scope `exposure`: for every key state and every
world, one call of `processInput`, and so any number of calls, leaves the HDR,
bloom, exposure and gamma fields of the `ProgramState` as they were, and with
them all commands of the resolve pass, among which is the write of the
`"exposure"` uniform; the global `exposure` is what changes, and with Q down it
takes the decrease step whether or not E is down as well. -/
theorem processInput_keeps_tone_settings (cam : CameraOps) (k : Keys) (ks : List Keys)
    (w : World) :
    toneSettings (processInput cam k w).programState = toneSettings w.programState ∧
    toneSettings (pollAll cam ks w).programState = toneSettings w.programState ∧
    resolvePass (pollAll cam ks w).programState = resolvePass w.programState ∧
    exposureWrite w.programState ∈ resolvePass (pollAll cam ks w).programState ∧
    (k.Q = true → (processInput cam k w).globals.exposure = qStep w.globals.exposure) ∧
    (processInput cam bothQE w).globals.exposure = qStep w.globals.exposure := by
  obtain ⟨c1, h1⟩ := processInput_camera_only cam k w
  obtain ⟨c2, h2⟩ := pollAll_camera_only cam ks w
  have hres : resolvePass (pollAll cam ks w).programState = resolvePass w.programState := by
    rw [h2]; rfl
  refine ⟨by rw [h1]; rfl, by rw [h2]; rfl, hres, ?_, ?_, ?_⟩
  · rw [hres]
    simp [exposureWrite, resolvePass]
  · intro hq
    rw [processInput_exposure, hq]
    rfl
  · rw [processInput_exposure]
    rfl

/-- Witness for C17: from the start of the program, a poll with Q and E both
down takes the global `exposure` from `1.0f` down to `0.9f`. -/
theorem processInput_keeps_tone_settings_witness :
    (processInput stillCamera bothQE startWorld).globals.exposure
      = qStep startWorld.globals.exposure :=
  (processInput_keeps_tone_settings stillCamera bothQE [] startWorld).2.2.2.2.1 rfl

/-! ## The mouse-look flag under F1 -/

theorem key_callback_flag_of_true (key scancode action mods : ℤ) (w : World)
    (h : (key_callback key scancode action mods w).programState.CameraMouseMovementUpdateEnabled
      = true) : w.programState.CameraMouseMovementUpdateEnabled = true := by
  unfold key_callback at h
  by_cases hc : key = GLFW_KEY_F1 ∧ action = GLFW_PRESS
  · rw [if_pos hc] at h
    cases he : w.programState.ImGuiEnabled
    · simp [he] at h
    · simpa [he] using h
  · rw [if_neg hc] at h
    exact h

theorem key_callback_flag_false (key scancode action mods : ℤ) (w : World)
    (h : w.programState.CameraMouseMovementUpdateEnabled = false) :
    (key_callback key scancode action mods w).programState.CameraMouseMovementUpdateEnabled
      = false := by
  cases hk : (key_callback key scancode action mods w).programState.CameraMouseMovementUpdateEnabled
  · rfl
  · rw [key_callback_flag_of_true key scancode action mods w hk] at h; cases h

theorem keyAll_flag_false (evs : List KeyEvent) (w : World)
    (h : w.programState.CameraMouseMovementUpdateEnabled = false) :
    (keyAll evs w).programState.CameraMouseMovementUpdateEnabled = false := by
  induction evs generalizing w with
  | nil => exact h
  | cons e es ih => exact ih _ (key_callback_flag_false e.key e.scancode e.action e.mods w h)

theorem keyAll_append (xs ys : List KeyEvent) (w : World) :
    keyAll (xs ++ ys) w = keyAll ys (keyAll xs w) := by
  simp [keyAll, List.foldl_append]

/-- C18. No call of `key_callback` turns `CameraMouseMovementUpdateEnabled` from
false to true.  Hence after any sequence of key events that contains an F1 press
arriving with the UI closed (so that it opens the UI), the flag is false,
whatever follows that press.  Two F1 presses in a row give back `ImGuiEnabled`,
and leave the cursor free if the UI was open and captured if it was closed, but
leave the flag false: a world whose flag was set is not restored. -/
theorem key_callback_never_enables_mouse_look (w : World) :
    (∀ key scancode action mods : ℤ,
      (key_callback key scancode action mods w).programState.CameraMouseMovementUpdateEnabled
        = true → w.programState.CameraMouseMovementUpdateEnabled = true) ∧
    (∀ (pre post : List KeyEvent) (e : KeyEvent), e.isF1Press →
      (keyAll pre w).programState.ImGuiEnabled = false →
      (keyAll (pre ++ e :: post) w).programState.CameraMouseMovementUpdateEnabled = false) ∧
    (keyAll [f1Press, f1Press] w).programState.ImGuiEnabled = w.programState.ImGuiEnabled ∧
    (keyAll [f1Press, f1Press] w).window.cursorMode
      = (if w.programState.ImGuiEnabled then CursorMode.NORMAL else CursorMode.DISABLED) ∧
    (keyAll [f1Press, f1Press] w).programState.CameraMouseMovementUpdateEnabled = false ∧
    (w.programState.CameraMouseMovementUpdateEnabled = true →
      keyAll [f1Press, f1Press] w ≠ w) := by
  have hflag : (keyAll [f1Press, f1Press] w).programState.CameraMouseMovementUpdateEnabled
      = false := by
    cases h : w.programState.ImGuiEnabled <;>
      simp [keyAll, key_callback, f1Press, h]
  refine ⟨fun key sc a mo => key_callback_flag_of_true key sc a mo w, ?_, ?_, ?_, hflag, ?_⟩
  · intro pre post e he hclosed
    rw [keyAll_append]
    show (keyAll post (key_callback e.key e.scancode e.action e.mods (keyAll pre w))).programState.CameraMouseMovementUpdateEnabled = false
    apply keyAll_flag_false
    unfold key_callback
    rw [if_pos (show e.key = GLFW_KEY_F1 ∧ e.action = GLFW_PRESS from he)]
    simp [hclosed]
  · cases h : w.programState.ImGuiEnabled <;>
      simp [keyAll, key_callback, f1Press, h]
  · cases h : w.programState.ImGuiEnabled <;>
      simp [keyAll, key_callback, f1Press, h]
  · intro hset heq
    rw [heq, hset] at hflag
    cases hflag

/-- Witness for C18: on the world of a fresh start (UI closed, mouse look on) two
F1 presses do not give the world back. -/
theorem key_callback_never_enables_mouse_look_witness :
    keyAll [f1Press, f1Press] startWorld ≠ startWorld :=
  (key_callback_never_enables_mouse_look startWorld).2.2.2.2.2 rfl

/-! ## Cursor events -/

/-- Evaluation rule for `f64`, as `f32_of_parts`. -/
theorem f64_of_parts (x : ℚ) (n : ℤ) (d : ℕ) (m e : ℤ) (hn : x.num = n) (hd : x.den = d)
    (h : roundParts 53 (-1074) n d = (m, e)) : f64 x = (m : ℚ) * 2 ^ e := by
  simp [f64, roundBin, hn, hd, h]

/-- Zero is a `float`. -/
theorem f32_zero : f32 0 = 0 := by
  rw [f32_of_parts _ 0 1 0 0 (by norm_num) (by norm_num) (by decide)]
  norm_num

/-- Zero is a `double`. -/
theorem f64_zero : f64 0 = 0 := by
  rw [f64_of_parts _ 0 1 0 0 (by norm_num) (by norm_num) (by decide)]
  norm_num

/-- The literal `0.5f`. -/
theorem f32_half : f32 (1 / 2) = 1 / 2 := by
  rw [f32_of_parts _ 1 2 8388608 (-24) (by norm_num) (by norm_num) (by decide)]
  norm_num

/-- A zero difference gives a zero offset. -/
theorem mouseOffset_zero : mouseOffset 0 = 0 := by
  simp [mouseOffset, f64_zero, f32_zero]

/-- Every cursor event stores the `float` conversions of its coordinates and
clears `firstMouse`; no other file-scope variable changes. -/
theorem mouse_callback_globals (cam : CameraOps) (xpos ypos : ℚ) (w : World) :
    (mouse_callback cam xpos ypos w).globals =
      { w.globals with lastX := f32 xpos, lastY := f32 ypos, firstMouse := false } := by
  unfold mouse_callback
  cases hf : w.globals.firstMouse <;>
    cases w.programState.CameraMouseMovementUpdateEnabled <;> simp [hf]

/-- A cursor event leaves the window alone. -/
theorem mouse_callback_window (cam : CameraOps) (xpos ypos : ℚ) (w : World) :
    (mouse_callback cam xpos ypos w).window = w.window := by
  unfold mouse_callback
  cases w.programState.CameraMouseMovementUpdateEnabled <;> rfl

/-- With mouse look enabled the camera receives the two rounded offsets. -/
theorem mouse_callback_enabled (cam : CameraOps) (xpos ypos : ℚ) (w : World)
    (h : w.programState.CameraMouseMovementUpdateEnabled = true) :
    (mouse_callback cam xpos ypos w).programState =
      { w.programState with camera :=
          (cam.ProcessMouseMovement (mouseOffset (xpos - mouseOriginX xpos w.globals))
            (mouseOffset (mouseOriginY ypos w.globals - ypos)) w.programState.camera) } := by
  unfold mouse_callback mouseOffset mouseOriginX mouseOriginY
  cases hf : w.globals.firstMouse <;> simp [h, hf]

/-- With mouse look disabled the persisted state is untouched. -/
theorem mouse_callback_disabled (cam : CameraOps) (xpos ypos : ℚ) (w : World)
    (h : w.programState.CameraMouseMovementUpdateEnabled = false) :
    (mouse_callback cam xpos ypos w).programState = w.programState := by
  unfold mouse_callback
  simp [h]


/-- The off-grid coordinate is stored as `1`. -/
theorem f32_offGridCursor : f32 offGridCursor = 1 := by
  rw [f32_of_parts _ 1073741825 1073741824 8388608 (-23) (by norm_num [offGridCursor])
    (by norm_num [offGridCursor]) (by decide)]
  norm_num

set_option maxRecDepth 100000 in
/-- The `double` difference `2 ^ (-30)` left over on the first event becomes
the offset `2 ^ (-31)`. -/
theorem mouseOffset_offGridCursor : mouseOffset (offGridCursor - 1) = 1 / 2147483648 := by
  have hd : offGridCursor - 1 = 1 / 1073741824 := by norm_num [offGridCursor]
  have h1 : f64 (1 / 1073741824) = 1 / 1073741824 := by
    rw [f64_of_parts _ 1 1073741824 4503599627370496 (-82) (by norm_num) (by norm_num)
      (by decide)]
    norm_num
  have h2 : f32 (1 / 1073741824) = 1 / 1073741824 := by
    rw [f32_of_parts _ 1 1073741824 8388608 (-53) (by norm_num) (by norm_num) (by decide)]
    norm_num
  have h3 : (1 : ℚ) / 1073741824 * (1 / 2) = 1 / 2147483648 := by norm_num
  have h4 : f32 (1 / 2147483648) = 1 / 2147483648 := by
    rw [f32_of_parts _ 1 2147483648 8388608 (-54) (by norm_num) (by norm_num) (by decide)]
    norm_num
  rw [hd, mouseOffset, h1, h2, f32_half, h3, h4]

/-- C19 (as written, refuted): on the first cursor event, with mouse look
enabled, the coordinate `1 + 2 ^ (-30)` is stored as `1`, not as itself, and
the horizontal offset handed to the camera is `2 ^ (-31)`, not `0`. -/
theorem first_cursor_event_rounds_coordinates :
    startWorld.globals.firstMouse = true ∧
    startWorld.programState.CameraMouseMovementUpdateEnabled = true ∧
    (mouse_callback recordingCamera offGridCursor 0 startWorld).globals.lastX = 1 ∧
    (mouse_callback recordingCamera offGridCursor 0 startWorld).globals.lastX ≠ offGridCursor ∧
    (mouse_callback recordingCamera offGridCursor 0 startWorld).programState.camera.Yaw =
      1 / 2147483648 ∧
    (mouse_callback recordingCamera offGridCursor 0 startWorld).programState.camera.Yaw ≠ 0 := by
  have hx : (mouse_callback recordingCamera offGridCursor 0 startWorld).globals.lastX = 1 := by
    rw [mouse_callback_globals]
    exact f32_offGridCursor
  have hy : (mouse_callback recordingCamera offGridCursor 0 startWorld).programState.camera.Yaw =
      1 / 2147483648 := by
    rw [mouse_callback_enabled recordingCamera offGridCursor 0 startWorld rfl]
    have ho : mouseOriginX offGridCursor startWorld.globals = f32 offGridCursor := rfl
    show mouseOffset (offGridCursor - mouseOriginX offGridCursor startWorld.globals) = _
    rw [ho, f32_offGridCursor]
    exact mouseOffset_offGridCursor
  refine ⟨rfl, rfl, hx, ?_, hy, ?_⟩
  · rw [hx]; norm_num [offGridCursor]
  · rw [hy]; norm_num

/-- C19 (amended): every cursor event stores the `float` conversions of its
coordinates in `lastX`/`lastY`, clears `firstMouse` and changes no other
file-scope variable and nothing of the window.  With mouse look enabled the
camera receives the offsets `mouseOffset (xpos - x0)` and
`mouseOffset (y0 - ypos)`, where `(x0, y0)` is the stored `(lastX, lastY)`, or
on the first event the `float` conversion of the event's own coordinates; with
mouse look disabled the persisted state is unchanged.  An offset is exactly
half the difference whenever the difference and its half are `float` values;
on a first event whose coordinates are `float` values both offsets are `0`
and the coordinates are stored unchanged. -/
theorem mouse_callback_offsets (cam : CameraOps) (xpos ypos : ℚ) (w : World) :
    (mouse_callback cam xpos ypos w).globals =
        { w.globals with lastX := f32 xpos, lastY := f32 ypos, firstMouse := false } ∧
    (mouse_callback cam xpos ypos w).window = w.window ∧
    (w.programState.CameraMouseMovementUpdateEnabled = true →
      (mouse_callback cam xpos ypos w).programState =
        { w.programState with camera :=
            (cam.ProcessMouseMovement (mouseOffset (xpos - mouseOriginX xpos w.globals))
              (mouseOffset (mouseOriginY ypos w.globals - ypos)) w.programState.camera) }) ∧
    (w.programState.CameraMouseMovementUpdateEnabled = false →
      (mouse_callback cam xpos ypos w).programState = w.programState) ∧
    (w.globals.firstMouse = false →
      mouseOriginX xpos w.globals = w.globals.lastX ∧
      mouseOriginY ypos w.globals = w.globals.lastY) ∧
    (∀ d : ℚ, f32 (f64 d) = d → f32 (d * (1 / 2)) = d * (1 / 2) →
      mouseOffset d = 1 / 2 * d) ∧
    (w.globals.firstMouse = true → f32 xpos = xpos → f32 ypos = ypos →
      mouseOffset (xpos - mouseOriginX xpos w.globals) = 0 ∧
      mouseOffset (mouseOriginY ypos w.globals - ypos) = 0 ∧
      (mouse_callback cam xpos ypos w).globals.lastX = xpos ∧
      (mouse_callback cam xpos ypos w).globals.lastY = ypos) := by
  refine ⟨mouse_callback_globals cam xpos ypos w, mouse_callback_window cam xpos ypos w,
    mouse_callback_enabled cam xpos ypos w, mouse_callback_disabled cam xpos ypos w, ?_, ?_, ?_⟩
  · intro hf
    simp [mouseOriginX, mouseOriginY, hf]
  · intro d h1 h2
    rw [mouseOffset, h1, f32_half, h2]
    ring
  · intro hf hx hy
    have hox : mouseOriginX xpos w.globals = xpos := by simp [mouseOriginX, hf, hx]
    have hoy : mouseOriginY ypos w.globals = ypos := by simp [mouseOriginY, hf, hy]
    rw [hox, hoy, sub_self, sub_self, mouse_callback_globals]
    exact ⟨mouseOffset_zero, mouseOffset_zero, hx, hy⟩

/-- The amended C19 at the first cursor event `(3, 4)` of a run: both
coordinates are `float` values, so they are stored unchanged and the
horizontal offset is `0`. -/
theorem mouse_callback_offsets_witness :
    (mouse_callback recordingCamera 3 4 startWorld).globals.lastX = 3 ∧
    (mouse_callback recordingCamera 3 4 startWorld).globals.lastY = 4 ∧
    mouseOffset (3 - mouseOriginX 3 startWorld.globals) = 0 :=
  have h3 : f32 3 = 3 := by
    rw [f32_of_parts _ 3 1 12582912 (-22) (by norm_num) (by norm_num) (by decide)]
    norm_num
  have h4 : f32 4 = 4 := by
    rw [f32_of_parts _ 4 1 8388608 (-21) (by norm_num) (by norm_num) (by decide)]
    norm_num
  have h := (mouse_callback_offsets recordingCamera 3 4 startWorld).2.2.2.2.2.2 rfl h3 h4
  ⟨h.2.2.1, h.2.2.2, h.1⟩


/-! ## Pipeline state from one iteration to the next -/

theorem glCommands_map_gl (cs : List GLCmd) : glCommands (cs.map Ev.gl) = cs := by
  induction cs with
  | nil => rfl
  | cons c cs ih => simp [glCommands, ih]

theorem annotate_append (xs ys : List GLCmd) (st : GLState) :
    annotate (xs ++ ys) st = annotate xs st ++ annotate ys (runGL xs st) := by
  induction xs generalizing st with
  | nil => rfl
  | cons c cs ih =>
    show (c, st) :: annotate (cs ++ ys) (c.apply st) = _
    rw [ih]
    rfl

theorem draws_append (xs ys : List GLCmd) (st : GLState) :
    draws (xs ++ ys) st = draws xs st ++ draws ys (runGL xs st) := by
  simp [draws, annotate_append]

/-- The callbacks of an event poll change nothing of the tracked pipeline
state. -/
theorem runGL_pollEvents (cam : CameraOps) (es : List InputEvent) (w : World) (st : GLState) :
    runGL (glCommands (pollEvents cam es w).2) st = st := by
  induction es generalizing w st with
  | nil => rfl
  | cons e es ih =>
    show runGL (glCommands ((dispatch cam e w).2 ++ (pollEvents cam es (dispatch cam e w).1).2))
      st = st
    rw [glCommands_append, runGL_append, ih]
    cases e <;> rfl

/-- The callbacks of an event poll draw nothing. -/
theorem draws_pollEvents (cam : CameraOps) (es : List InputEvent) (w : World) (st : GLState) :
    draws (glCommands (pollEvents cam es w).2) st = [] := by
  induction es generalizing w st with
  | nil => rfl
  | cons e es ih =>
    show draws (glCommands ((dispatch cam e w).2 ++ (pollEvents cam es (dispatch cam e w).1).2))
      st = []
    rw [glCommands_append, draws_append, ih]
    cases e <;> rfl

/-- The OpenGL commands of a frame: the commands of lines 650-913, the overlay
renderer when the UI flag is set, and the viewport calls of the callbacks. -/
theorem frame_glCommands (cam : CameraOps) (m : Machine) (inp : FrameInput) (w : World) :
    glCommands (frame cam m inp w).2 =
      frameCommands m (afterInput cam inp w).programState (afterInput cam inp w).globals
          (f32 inp.time) ++
        ((if w.programState.ImGuiEnabled then [GLCmd.renderDrawData] else []) ++
          glCommands (pollEvents cam inp.events
            { afterInput cam inp w with
              programState :=
                if w.programState.ImGuiEnabled then
                  (DrawImGui inp.ui (afterInput cam inp w).programState).1
                else (afterInput cam inp w).programState,
              globals := (renderQuad m.quadName (afterInput cam inp w).globals).1 }).2) := by
  rw [frame_events]
  show glCommands (_ ++ _ ++ (_ :: _ :: _)) = _
  rw [glCommands_append, glCommands_append]
  show glCommands (List.map Ev.gl _) ++ _ ++ glCommands (pollEvents cam inp.events _).2 = _
  rw [glCommands_map_gl, List.append_assoc]
  cases w.programState.ImGuiEnabled <;> rfl

/-- The pipeline state a frame leaves, whatever state it starts in. -/
theorem runGL_frame (cam : CameraOps) (m : Machine) (inp : FrameInput) (w : World)
    (st : GLState) :
    runGL (glCommands (frame cam m inp w).2) st =
      { depthTest := st.depthTest, blend := st.blend, cullFaceEnabled := false,
        depthFunc := .LESS, blendSrc := st.blendSrc, blendDst := st.blendDst,
        cullFace := .FRONT, frontFace := .CW, framebuffer := .zero,
        program := some .screenShader, vertexArray := .zero } := by
  rw [frame_glCommands, runGL_append, runGL_append, runGL_pollEvents, runGL_frameCommands]
  cases w.programState.ImGuiEnabled <;> rfl

/-- The draws of a frame are the draws of the commands of lines 650-913. -/
theorem draws_frame (cam : CameraOps) (m : Machine) (inp : FrameInput) (w : World)
    (st : GLState) :
    draws (glCommands (frame cam m inp w).2) st =
      draws (frameCommands m (afterInput cam inp w).programState (afterInput cam inp w).globals
        (f32 inp.time)) st := by
  rw [frame_glCommands, draws_append, draws_append, draws_pollEvents]
  cases w.programState.ImGuiEnabled <;> simp <;> rfl

/-- The depth function at each draw of the commands of lines 650-913. -/
theorem drawDepthFuncs_frameCommands (m : Machine) (ps : ProgramState) (g : Globals) (t : ℚ)
    (st : GLState) :
    drawDepthFuncs (frameCommands m ps g t) st =
      [(.floor, st.depthFunc), (.opaqueBox, st.depthFunc),
       (.model .modelRocket, st.depthFunc), (.windowFace, st.depthFunc),
       (.culledBox, st.depthFunc), (.model .modelAstronaut, st.depthFunc),
       (.model .modelSun, st.depthFunc), (.model .modelEarth, st.depthFunc),
       (.model .modelRocket, st.depthFunc), (.model .modelMars, st.depthFunc),
       (.model .modelAstronaut, st.depthFunc), (.model .modelAstronaut, st.depthFunc),
       (.skybox, .LEQUAL), (.resolveQuad, .LESS)] := by
  cases st
  unfold frameCommands renderQuad
  split <;> rfl


/-- Once an iteration has run, every later iteration starts in the state it
left. -/
theorem frameStarts_settled (cam : CameraOps) (m : Machine) (inputs : List FrameInput)
    (w : World) (st : GLState) :
    ∀ s ∈ frameStarts cam m inputs w
        { depthTest := st.depthTest, blend := st.blend, cullFaceEnabled := false,
          depthFunc := .LESS, blendSrc := st.blendSrc, blendDst := st.blendDst,
          cullFace := .FRONT, frontFace := .CW, framebuffer := .zero,
          program := some .screenShader, vertexArray := .zero },
      s = { depthTest := st.depthTest, blend := st.blend, cullFaceEnabled := false,
            depthFunc := .LESS, blendSrc := st.blendSrc, blendDst := st.blendDst,
            cullFace := .FRONT, frontFace := .CW, framebuffer := .zero,
            program := some .screenShader, vertexArray := .zero } := by
  induction inputs generalizing w with
  | nil => intro s hs; cases hs
  | cons inp rest ih =>
    intro s hs
    unfold frameStarts at hs
    split at hs
    · cases hs
    · rw [runGL_frame] at hs
      rcases List.mem_cons.mp hs with h | h
      · exact h
      · exact ih _ s h

/-- Every iteration after the first starts in the state the first one left. -/
theorem frameStarts_tail (cam : CameraOps) (m : Machine) (inputs : List FrameInput)
    (w : World) (st : GLState) :
    ∀ s ∈ (frameStarts cam m inputs w st).tail,
      s = { depthTest := st.depthTest, blend := st.blend, cullFaceEnabled := false,
            depthFunc := .LESS, blendSrc := st.blendSrc, blendDst := st.blendDst,
            cullFace := .FRONT, frontFace := .CW, framebuffer := .zero,
            program := some .screenShader, vertexArray := .zero } := by
  cases inputs with
  | nil => intro s hs; cases hs
  | cons inp rest =>
    intro s hs
    unfold frameStarts at hs
    split at hs
    · cases hs
    · rw [runGL_frame] at hs
      exact frameStarts_settled cam m rest _ st s hs

/-- The first iteration, if there is one, starts in the state the loop is
reached in. -/
theorem frameStarts_head (cam : CameraOps) (m : Machine) (inputs : List FrameInput)
    (w : World) (st s : GLState) (h : (frameStarts cam m inputs w st).head? = some s) :
    s = st := by
  cases inputs with
  | nil => cases h
  | cons inp rest =>
    unfold frameStarts at h
    split at h
    · cases h
    · exact (Option.some.inj h).symm


/-- The depth function at each draw of a frame. -/
theorem drawDepthFuncs_frame (cam : CameraOps) (m : Machine) (inp : FrameInput) (w : World)
    (st : GLState) :
    drawDepthFuncs (glCommands (frame cam m inp w).2) st =
      [(.floor, st.depthFunc), (.opaqueBox, st.depthFunc),
       (.model .modelRocket, st.depthFunc), (.windowFace, st.depthFunc),
       (.culledBox, st.depthFunc), (.model .modelAstronaut, st.depthFunc),
       (.model .modelSun, st.depthFunc), (.model .modelEarth, st.depthFunc),
       (.model .modelRocket, st.depthFunc), (.model .modelMars, st.depthFunc),
       (.model .modelAstronaut, st.depthFunc), (.model .modelAstronaut, st.depthFunc),
       (.skybox, .LEQUAL), (.resolveQuad, .LESS)] := by
  unfold drawDepthFuncs
  rw [draws_frame]
  exact drawDepthFuncs_frameCommands m _ _ _ st

/-- C20: whatever pipeline state an iteration of the render loop starts in, its
commands leave depth function `LESS`, face culling disabled and the window's
framebuffer (0) bound.  Its draws, in order, are issued under the depth
function the iteration started with, except the skybox, issued under `LEQUAL`,
and the resolve quad after it, issued under `LESS`; every iteration of a run
starts with `LESS`, so there the skybox is the only draw under `LEQUAL` and
every other draw is under `LESS`.  The first iteration starts in the state the
set-up leaves, with culling enabled and cull face `FRONT`; every later one
starts in one and the same state, which is that state with culling disabled,
the window's framebuffer bound and the post-process shader active, and so
differs from it. -/
theorem frame_leaves_settled_pipeline (cam : CameraOps) (m : Machine) (inp : FrameInput)
    (w : World) (st : GLState) (inputs : List FrameInput) (w0 : World) :
    ((runGL (glCommands (frame cam m inp w).2) st).depthFunc = .LESS ∧
     (runGL (glCommands (frame cam m inp w).2) st).cullFaceEnabled = false ∧
     (runGL (glCommands (frame cam m inp w).2) st).framebuffer = .zero) ∧
    drawDepthFuncs (glCommands (frame cam m inp w).2) st =
      [(.floor, st.depthFunc), (.opaqueBox, st.depthFunc),
       (.model .modelRocket, st.depthFunc), (.windowFace, st.depthFunc),
       (.culledBox, st.depthFunc), (.model .modelAstronaut, st.depthFunc),
       (.model .modelSun, st.depthFunc), (.model .modelEarth, st.depthFunc),
       (.model .modelRocket, st.depthFunc), (.model .modelMars, st.depthFunc),
       (.model .modelAstronaut, st.depthFunc), (.model .modelAstronaut, st.depthFunc),
       (.skybox, .LEQUAL), (.resolveQuad, .LESS)] ∧
    (st.depthFunc = .LESS →
      ∀ p ∈ drawDepthFuncs (glCommands (frame cam m inp w).2) st,
        (p.2 = .LEQUAL ↔ p.1 = .skybox) ∧ (p.1 ≠ .skybox → p.2 = .LESS)) ∧
    (∀ s ∈ frameStarts cam m inputs w0 (loopEntryGL cam m), s.depthFunc = .LESS) ∧
    (∀ s, (frameStarts cam m inputs w0 (loopEntryGL cam m)).head? = some s →
      s = loopEntryGL cam m) ∧
    (∀ s ∈ (frameStarts cam m inputs w0 (loopEntryGL cam m)).tail,
      s = { loopEntryGL cam m with
            cullFaceEnabled := false, framebuffer := .zero, program := some .screenShader }) ∧
    (loopEntryGL cam m).cullFaceEnabled = true ∧
    (loopEntryGL cam m).cullFace = .FRONT ∧
    ({ loopEntryGL cam m with
       cullFaceEnabled := false, framebuffer := .zero, program := some .screenShader } : GLState) ≠
      loopEntryGL cam m := by
  have hd := drawDepthFuncs_frame cam m inp w st
  have htail := frameStarts_tail cam m inputs w0 (loopEntryGL cam m)
  rw [loopEntryGL_eq] at htail
  refine ⟨?_, hd, ?_, ?_, ?_, ?_, ?_, ?_, ?_⟩
  · rw [runGL_frame]
    exact ⟨rfl, rfl, rfl⟩
  · intro hst p hp
    rw [hd, hst] at hp
    simp only [List.mem_cons, List.mem_singleton, List.not_mem_nil, or_false] at hp
    rcases hp with h | h | h | h | h | h | h | h | h | h | h | h | h | h <;> subst h <;> simp
  · intro s hs
    cases hl : frameStarts cam m inputs w0 (loopEntryGL cam m) with
    | nil => rw [hl] at hs; cases hs
    | cons a l =>
      rw [hl] at hs
      rcases List.mem_cons.mp hs with h | h
      · have ha := frameStarts_head cam m inputs w0 (loopEntryGL cam m) a (by rw [hl]; rfl)
        rw [h, ha, loopEntryGL_eq]
      · have := htail s (by rw [loopEntryGL_eq] at hl; rw [hl]; exact h)
        rw [this]
  · exact fun s hs => frameStarts_head cam m inputs w0 _ s hs
  · intro s hs
    rw [loopEntryGL_eq] at hs ⊢
    exact htail s hs
  · rw [loopEntryGL_eq]
  · rw [loopEntryGL_eq]
  · rw [loopEntryGL_eq]
    decide

/-- C20 on a run of three idle frames from the set-up of `main`: three
iterations start, every draw of the first but the skybox is issued under
`LESS`, and the second and third start in the same state. -/
theorem frame_leaves_settled_pipeline_witness :
    (frameStarts stillCamera goodMachine [idleFrame 0, idleFrame 1, idleFrame 2] startWorld
      (loopEntryGL stillCamera goodMachine)).length = 3 ∧
    (∀ p ∈ drawDepthFuncs (glCommands (frame stillCamera goodMachine (idleFrame 0) startWorld).2)
        (loopEntryGL stillCamera goodMachine),
      (p.2 = .LEQUAL ↔ p.1 = .skybox) ∧ (p.1 ≠ .skybox → p.2 = .LESS)) ∧
    (∀ s ∈ (frameStarts stillCamera goodMachine [idleFrame 0, idleFrame 1, idleFrame 2] startWorld
        (loopEntryGL stillCamera goodMachine)).tail,
      s = { loopEntryGL stillCamera goodMachine with
            cullFaceEnabled := false, framebuffer := .zero, program := some .screenShader }) :=
  have h := frame_leaves_settled_pipeline stillCamera goodMachine (idleFrame 0) startWorld
    (loopEntryGL stillCamera goodMachine) [idleFrame 0, idleFrame 1, idleFrame 2] startWorld
  ⟨rfl, h.2.2.1 (by rw [loopEntryGL_eq]), h.2.2.2.2.2.1⟩

end Universe
